import Mathlib

/-!
Verification of the I2R pipeline orchestrator (`i2r.py`): the block-structured
configuration parser (`read_config_file`), the value-coercion function
(`parse`), the per-stage default resolution, the inter-stage data-flow
resolution (the `.` and `PREVIOUS_BLOCK_OUTPUT_FOLDER` tokens, the
`Structure` status written by `CHECK_FOLDER` and consumed by `REORGANIZE`),
and the stage dispatch loop of `main`.

The embedding works on lists of characters so that every operation is a
plain structural recursion that the kernel can evaluate.  Python strings
are `List Char` internally and `String` at the interface.  Python `dict`s
are association lists with insert-or-overwrite semantics.  Exceptions are
modelled with `Except`; a bare `except:` clause is a `match` on the
`Except` value.
-/

namespace I2R

/-! ## Character-list utilities modelling Python `str` operations -/

/-- Whitespace characters stripped by Python `str.strip()` (ASCII subset). -/
def isSpaceChar (c : Char) : Bool :=
  c == ' ' || c == '\t' || c == '\n' || c == '\r' || c == '\x0b' || c == '\x0c'

/-- Remove trailing characters satisfying `p` (as Python `rstrip`). -/
def dropEndWhile (p : Char → Bool) (l : List Char) : List Char :=
  (l.reverse.dropWhile p).reverse

/-- Python `str.strip()` with no argument: whitespace off both ends. -/
def stripWSL (l : List Char) : List Char :=
  dropEndWhile isSpaceChar (l.dropWhile isSpaceChar)

/-- Python `str.strip(c)` for a one-character set: remove every leading and
trailing occurrence of `c`. -/
def stripBothChar (c : Char) (l : List Char) : List Char :=
  dropEndWhile (· == c) (l.dropWhile (· == c))

/-- Python `str.rstrip(c)`: remove every trailing occurrence of `c`. -/
def rstripChar (c : Char) (l : List Char) : List Char :=
  dropEndWhile (· == c) l

/-- Python `str.split(sep)` for a one-character separator: always returns at
least one (possibly empty) field. -/
def splitChar (sep : Char) : List Char → List (List Char)
  | [] => [[]]
  | c :: rest =>
    if c == sep then [] :: splitChar sep rest
    else
      match splitChar sep rest with
      | [] => [[c]]
      | p :: ps => (c :: p) :: ps

/-- Test whether `pat` occurs at the start of `l`. -/
def beginsWith : List Char → List Char → Bool
  | [], _ => true
  | _ :: _, [] => false
  | p :: ps, c :: cs => p == c && beginsWith ps cs

/-- Python `pat in s`: substring containment. -/
def containsSub (pat : List Char) : List Char → Bool
  | [] => beginsWith pat []
  | c :: cs => beginsWith pat (c :: cs) || containsSub pat cs

/-- Python `line.replace(' ','').replace('\t','')`. -/
def removeSpTab (l : List Char) : List Char :=
  l.filter (fun c => !(c == ' ' || c == '\t'))

/-- Python `line.split('#')[0]`: the prefix before the first `#`. -/
def takeBeforeHash (l : List Char) : List Char :=
  l.takeWhile (· != '#')

/-- Apply `f` to the last element of a non-empty list. -/
def setLast (f : List Char → List Char) : List (List Char) → List (List Char)
  | [] => []
  | [p] => [f p]
  | p :: ps => p :: setLast f ps

/-! ## Python numeric literal parsing (models the builtins `int` and `float`)

Python's `int(s)` and `float(s)` accept optional surrounding whitespace and
an optional sign; `float` additionally accepts a fractional part, an
exponent, and the case-insensitive literals `inf`, `infinity` and `nan`.
(Underscore digit grouping and non-ASCII digits are not modelled; no claim
depends on them.) -/

/-- Digits of a decimal literal, as a natural number; `none` when the list is
empty or contains a non-digit. -/
def digitsToNat? (ds : List Char) : Option Nat :=
  if ds.isEmpty then none
  else if ds.all Char.isDigit then
    some (ds.foldl (fun acc c => acc * 10 + (c.toNat - '0'.toNat)) 0)
  else none

/-- Model of Python `int(s)` on a string: `none` means `ValueError`. -/
def pyIntL (i : List Char) : Option Int :=
  match stripWSL i with
  | '+' :: ds => (digitsToNat? ds).map Int.ofNat
  | '-' :: ds => (digitsToNat? ds).map (fun n => -(n : Int))
  | ds => (digitsToNat? ds).map Int.ofNat

/-- Value of a Python `float`: a finite rational, a signed infinity, or NaN.
The binary rounding of the decimal literal is not modelled; the claims
never compare float values produced from distinct literals. -/
inductive PyFloat where
  | finite (q : ℚ)
  | inf (neg : Bool)
  | nan
  deriving DecidableEq

/-- Mantissa and exponent of a decimal float literal, split at `e`/`E` and
`.`; `none` means the literal is malformed. -/
def floatBody? (body : List Char) : Option ℚ :=
  let parts := splitChar 'e' (body.map Char.toLower)
  let withExp : Option (List Char × Int) :=
    match parts with
    | [m] => some (m, 0)
    | [m, e] =>
      let (esign, edigs) :=
        match e with
        | '+' :: ds => ((1 : Int), ds)
        | '-' :: ds => ((-1 : Int), ds)
        | ds => ((1 : Int), ds)
      match digitsToNat? edigs with
      | some n => some (m, esign * n)
      | none => none
    | _ => none
  match withExp with
  | none => none
  | some (m, ex) =>
    match splitChar '.' m with
    | [ip] =>
      match digitsToNat? ip with
      | some n => some ((n : ℚ) * (10 : ℚ) ^ ex)
      | none => none
    | [ip, fp] =>
      if ip.isEmpty && fp.isEmpty then none
      else if (ip.all Char.isDigit) && (fp.all Char.isDigit) && !(ip.isEmpty && fp.isEmpty) then
        let n := (ip ++ fp).foldl (fun acc c => acc * 10 + (c.toNat - '0'.toNat)) 0
        some ((n : ℚ) / (10 : ℚ) ^ fp.length * (10 : ℚ) ^ ex)
      else none
    | _ => none

/-- Model of Python `float(s)` on a string: `none` means `ValueError`. -/
def pyFloatL (i : List Char) : Option PyFloat :=
  let t := stripWSL i
  let (neg, body) :=
    match t with
    | '+' :: ds => (false, ds)
    | '-' :: ds => (true, ds)
    | ds => (false, ds)
  let low := body.map Char.toLower
  if low == "inf".data || low == "infinity".data then some (.inf neg)
  else if low == "nan".data then some .nan
  else
    match floatBody? body with
    | some q => some (.finite (if neg then -q else q))
    | none => none

/-! ## Python values and errors -/

/-- A Python value as produced by `parse` and stored in the parameter
dictionaries: bool, int, float, string, list, or `None`. -/
inductive PyVal where
  | bool (b : Bool)
  | int (n : Int)
  | float (f : PyFloat)
  | str (s : String)
  | list (l : List PyVal)
  | none

mutual

/-- Structural (Lean-level) equality test on `PyVal`. -/
def PyVal.beq : PyVal → PyVal → Bool
  | .bool a, .bool b => a == b
  | .int a, .int b => a == b
  | .float a, .float b => a == b
  | .str a, .str b => a == b
  | .list a, .list b => PyVal.beqList a b
  | .none, .none => true
  | _, _ => false

/-- Structural equality test on lists of `PyVal`. -/
def PyVal.beqList : List PyVal → List PyVal → Bool
  | [], [] => true
  | a :: as, b :: bs => PyVal.beq a b && PyVal.beqList as bs
  | _, _ => false

end

mutual

theorem PyVal.eq_of_beq : ∀ a b : PyVal, PyVal.beq a b = true → a = b
  | .bool _, .bool _, h => by simpa [PyVal.beq] using h
  | .int _, .int _, h => by simpa [PyVal.beq] using h
  | .float _, .float _, h => by simpa [PyVal.beq] using h
  | .str _, .str _, h => by simpa [PyVal.beq] using h
  | .none, .none, _ => rfl
  | .list a, .list b, h => by
      rw [PyVal.eqList_of_beqList a b (by simpa [PyVal.beq] using h)]
  | .bool _, .int _, h => by simp [PyVal.beq] at h
  | .bool _, .float _, h => by simp [PyVal.beq] at h
  | .bool _, .str _, h => by simp [PyVal.beq] at h
  | .bool _, .list _, h => by simp [PyVal.beq] at h
  | .bool _, .none, h => by simp [PyVal.beq] at h
  | .int _, .bool _, h => by simp [PyVal.beq] at h
  | .int _, .float _, h => by simp [PyVal.beq] at h
  | .int _, .str _, h => by simp [PyVal.beq] at h
  | .int _, .list _, h => by simp [PyVal.beq] at h
  | .int _, .none, h => by simp [PyVal.beq] at h
  | .float _, .bool _, h => by simp [PyVal.beq] at h
  | .float _, .int _, h => by simp [PyVal.beq] at h
  | .float _, .str _, h => by simp [PyVal.beq] at h
  | .float _, .list _, h => by simp [PyVal.beq] at h
  | .float _, .none, h => by simp [PyVal.beq] at h
  | .str _, .bool _, h => by simp [PyVal.beq] at h
  | .str _, .int _, h => by simp [PyVal.beq] at h
  | .str _, .float _, h => by simp [PyVal.beq] at h
  | .str _, .list _, h => by simp [PyVal.beq] at h
  | .str _, .none, h => by simp [PyVal.beq] at h
  | .list _, .bool _, h => by simp [PyVal.beq] at h
  | .list _, .int _, h => by simp [PyVal.beq] at h
  | .list _, .float _, h => by simp [PyVal.beq] at h
  | .list _, .str _, h => by simp [PyVal.beq] at h
  | .list _, .none, h => by simp [PyVal.beq] at h
  | .none, .bool _, h => by simp [PyVal.beq] at h
  | .none, .int _, h => by simp [PyVal.beq] at h
  | .none, .float _, h => by simp [PyVal.beq] at h
  | .none, .str _, h => by simp [PyVal.beq] at h
  | .none, .list _, h => by simp [PyVal.beq] at h

theorem PyVal.eqList_of_beqList : ∀ a b : List PyVal, PyVal.beqList a b = true → a = b
  | [], [], _ => rfl
  | [], _ :: _, h => by simp [PyVal.beqList] at h
  | _ :: _, [], h => by simp [PyVal.beqList] at h
  | a :: as, b :: bs, h => by
      have h' : PyVal.beq a b = true ∧ PyVal.beqList as bs = true := by
        simpa [PyVal.beqList, Bool.and_eq_true] using h
      rw [PyVal.eq_of_beq a b h'.1, PyVal.eqList_of_beqList as bs h'.2]

end

mutual

theorem PyVal.beq_self : ∀ a : PyVal, PyVal.beq a a = true
  | .bool _ => by simp [PyVal.beq]
  | .int _ => by simp [PyVal.beq]
  | .float _ => by simp [PyVal.beq]
  | .str _ => by simp [PyVal.beq]
  | .none => rfl
  | .list a => by simpa [PyVal.beq] using PyVal.beqList_self a

theorem PyVal.beqList_self : ∀ a : List PyVal, PyVal.beqList a a = true
  | [] => rfl
  | a :: as => by simp [PyVal.beqList, PyVal.beq_self a, PyVal.beqList_self as]

end

instance : DecidableEq PyVal := fun a b =>
  decidable_of_iff (PyVal.beq a b = true)
    ⟨PyVal.eq_of_beq a b, fun h => h ▸ PyVal.beq_self a⟩

/-- Uncaught Python exceptions relevant to the orchestrator. `fuel` is an
artifact of the fuel-indexed recursion in `parseF` and cannot occur when the
fuel exceeds the input length (each recursive call is on a strictly shorter
string). -/
inductive PyErr where
  | indexError
  | keyError (k : String)
  | valueError
  | typeError
  | attributeError
  | fuel
  deriving DecidableEq

/-! ## Value coercion: `parse` (i2r.py lines 1546-1574)

The Python source:
```
def parse(i):
    if i in ['True','true']:        return True
    elif i in ['False','false']:    return False
    else:
        try:                        return int(i)
        except:
            try:                    return float(i)
            except:
                if 'pi' in i:
                    try:            return eval(i)
                    except:         return i
                elif not i[0] == '[': return i
                else:
                    try:
                        split=i.split(',')
                        split[0]=split[0].strip("[")
                        split[len(split)-1]=split[len(split)-1].strip("]")
                        for j in range(len(split)):
                            split[j]=parse(split[j])
                        return split
                    except:          return i
```
Exceptions raised inside an `except:` handler are NOT caught by that same
`try`, so the `i[0]` subscript on the empty string escapes `parse`
uncaught (an `IndexError`). -/

/-- Model of `eval(i)` for a string containing the substring `pi`:
`i2r.py` never imports or defines `pi`, so evaluation of a genuine
pi-expression raises `NameError` and the surrounding `try` falls back to the
raw string.  We model the evaluation as always failing; no claim depends on
a successful `eval`. -/
def pyEvalPi (_ : List Char) : Option PyVal := Option.none

/-- Combine a list of `Except` results, stopping at the first error (models
the `for` loop over `split` inside the list-branch `try`). -/
def tryAll : List (Except PyErr PyVal) → Except PyErr (List PyVal)
  | [] => .ok []
  | .error e :: _ => .error e
  | .ok v :: rest =>
    match tryAll rest with
    | .ok vs => .ok (v :: vs)
    | .error e => .error e

/-- The list-branch element adjustment: strip `[` from the first field and
`]` from the last field (Python `strip` removes every leading and trailing
occurrence; with a single field both strips apply to it in order). -/
def adjustParts : List (List Char) → List (List Char)
  | [] => []
  | [p] => [stripBothChar ']' (stripBothChar '[' p)]
  | p :: ps => stripBothChar '[' p :: setLast (stripBothChar ']') ps

/-- Fuel-indexed body of `parse`.  The fuel strictly decreases at each
recursive call while the argument also strictly shortens, so fuel
`length + 1` never runs out (see `parseF_isOk_of_ne_nil` for the claims that
rely on the absence of errors). -/
def parseF : Nat → List Char → Except PyErr PyVal
  | 0, _ => .error .fuel
  | fuel + 1, i =>
    if i = "True".data || i = "true".data then .ok (.bool true)
    else if i = "False".data || i = "false".data then .ok (.bool false)
    else
      match pyIntL i with
      | some n => .ok (.int n)
      | Option.none =>
        match pyFloatL i with
        | some f => .ok (.float f)
        | Option.none =>
          if containsSub "pi".data i then
            match pyEvalPi i with
            | some v => .ok v
            | Option.none => .ok (.str ⟨i⟩)
          else
            match i with
            | [] => .error .indexError
            | c :: _ =>
              if c != '[' then .ok (.str ⟨i⟩)
              else
                match tryAll ((adjustParts (splitChar ',' i)).map (parseF fuel)) with
                | .ok vs => .ok (.list vs)
                | .error _ => .ok (.str ⟨i⟩)

/-- The value-coercion function `parse` of `i2r.py`, on `String`. -/
def parse (s : String) : Except PyErr PyVal :=
  parseF (s.data.length + 1) s.data

/-! ## Python `==`, truthiness and `str()` on `PyVal` -/

mutual

/-- Python `==` between two values: numeric cross-type equality (`True == 1`,
`1 == 1.0`), `nan` unequal to everything including itself, strings and lists
compared structurally, values of unrelated types unequal. -/
def pyEq : PyVal → PyVal → Bool
  | .bool a, .bool b => a == b
  | .bool a, .int n => (if a then (1 : Int) else 0) == n
  | .bool a, .float (.finite q) => q == (if a then (1 : ℚ) else 0)
  | .int n, .bool b => n == (if b then (1 : Int) else 0)
  | .int a, .int b => a == b
  | .int n, .float (.finite q) => (n : ℚ) == q
  | .float (.finite q), .bool b => q == (if b then (1 : ℚ) else 0)
  | .float (.finite q), .int n => q == (n : ℚ)
  | .float (.finite a), .float (.finite b) => a == b
  | .float (.inf a), .float (.inf b) => a == b
  | .str a, .str b => a == b
  | .list a, .list b => pyEqList a b
  | .none, .none => true
  | _, _ => false

/-- Python `==` on two lists: elementwise with equal lengths. -/
def pyEqList : List PyVal → List PyVal → Bool
  | [], [] => true
  | a :: as, b :: bs => pyEq a b && pyEqList as bs
  | _, _ => false

end

/-- Python truthiness: `bool(v)`. -/
def pyTruthy : PyVal → Bool
  | .bool b => b
  | .int n => n != 0
  | .float (.finite q) => q != 0
  | .float (.inf _) => true
  | .float .nan => true
  | .str s => s != ""
  | .list l => !l.isEmpty
  | .none => false

/-- Python `repr` of a float.  The decimal shortest-repr algorithm of CPython
is not modelled (no claim compares stringified floats); finite values are
shown as `num.0` or `num/den`. -/
def floatRepr : PyFloat → String
  | .finite q => if q.den == 1 then toString q.num ++ ".0" else toString q.num ++ "/" ++ toString q.den
  | .inf b => if b then "-inf" else "inf"
  | .nan => "nan"

mutual

/-- Python `repr(v)` (strings quoted), used for elements of a stringified
list. -/
def pyRepr : PyVal → String
  | .bool b => if b then "True" else "False"
  | .int n => toString n
  | .float f => floatRepr f
  | .str s => "\x27" ++ s ++ "\x27"
  | .none => "None"
  | .list l => "[" ++ pyReprList l ++ "]"

/-- Comma-separated `repr`s of the elements of a list. -/
def pyReprList : List PyVal → String
  | [] => ""
  | [v] => pyRepr v
  | v :: rest => pyRepr v ++ ", " ++ pyReprList rest

end

/-- Python `str(v)`: identity on strings, `repr` otherwise (coincides with
`str` for the value shapes produced by `parse`). -/
def pyStr : PyVal → String
  | .str s => s
  | v => pyRepr v

/-- Python `v > n` for an integer literal `n` (used by the RADIOMICS
`multiprocessing > 1` check): comparing a string or list with an int raises
`TypeError`. -/
def pyGtInt (v : PyVal) (n : Int) : Except PyErr Bool :=
  match v with
  | .bool b => .ok (n < (if b then 1 else 0))
  | .int m => .ok (n < m)
  | .float (.finite q) => .ok ((n : ℚ) < q)
  | .float (.inf neg) => .ok (!neg)
  | .float .nan => .ok false
  | .str _ => .error .typeError
  | .list _ => .error .typeError
  | .none => .error .typeError

/-! ## Dictionaries and stage records

A Python `dict` is an association list with insert-or-overwrite semantics
(`pset`); a stage record produced by `read_config_file` is an association
list of raw strings in which `pd.concat` may create duplicate labels. -/

/-- Key membership in an association list (`k in d.keys()` / `k in d.index`). -/
def amem {α : Type} (p : List (String × α)) (k : String) : Bool :=
  p.any (fun e => e.1 == k)

/-- First binding of a key in an association list. -/
def aget {α : Type} (p : List (String × α)) (k : String) : Option α :=
  (p.find? (fun e => e.1 == k)).map (·.2)

/-- Parameter dictionaries built by the orchestrator. -/
abbrev Params := List (String × PyVal)

/-- Key membership, `k in params.keys()`. -/
def pmem (p : Params) (k : String) : Bool := amem p k

/-- Dictionary lookup, `params[k]`, as an `Option`. -/
def pget (p : Params) (k : String) : Option PyVal := aget p k

/-- Dictionary update `params[k] = v`: overwrite in place or append. -/
def pset : Params → String → PyVal → Params
  | [], k, v => [(k, v)]
  | e :: rest, k, v => if e.1 == k then (k, v) :: rest else e :: pset rest k v

/-- Default fill: `if not k in params.keys(): params[k] = v`. -/
def dflt (k : String) (v : PyVal) (p : Params) : Params :=
  if pmem p k then p else pset p k v

/-- Dictionary lookup `params[k]` raising `KeyError` when absent. -/
def pgetE (p : Params) (k : String) : Except PyErr PyVal :=
  match pget p k with
  | some v => .ok v
  | Option.none => .error (.keyError k)

/-- Lookup projected to a string value (for theorem statements). -/
def pgetStr (p : Params) (k : String) : Option String :=
  match pget p k with
  | some (.str s) => some s
  | _ => Option.none

/-- A raw stage record: parameter names mapped to raw string values, with
the reserved key `function` holding the stage kind.  `pd.concat` appends, so
duplicate keys are representable. -/
abbrev Record := List (String × String)

/-- The stage kind of a record, `cfg["function"]`. -/
def cfgFunction (cfg : Record) : String := (aget cfg "function").getD ""

/-- Number of bindings of a key in a record (pandas allows duplicate index
labels; `cfg[k]` returns a sub-Series when a label is duplicated). -/
def countKey (cfg : Record) (k : String) : Nat :=
  (cfg.filter (fun e => e.1 == k)).length

/-! ## The config-file reader `read_config_file` (i2r.py lines 1475-1543)

The reader consumes the file line by line: blank and `#` lines are skipped;
while no `function` is pending, a line must contain one of the stage-kind
identifiers (substring match on the text before any `#`, tested in source
order) or the run aborts; after a kind line, a `{` opens the block; inside
a block each line has all spaces/tabs removed and is recorded as
`(line.split(':')[0], line.split('#')[0].split(':')[1])` — the `try` around
this `pd.concat` turns a missing second field (`IndexError`) into a fatal
parse error; `}` closes the block and appends the record.  Notably there is
NO duplicate-key detection: `pd.concat` happily produces a Series with a
duplicated label. -/

inductive ConfErr where
  | badLine (line : String)
  | unknownModule (line : String)
  deriving DecidableEq

/-- Stage-kind identification by substring matching, in source order. -/
def kindOf (core : List Char) : Option String :=
  if containsSub "GLOBAL_PARAMETERS".data core then some "GLOBAL_PARAMETERS"
  else if containsSub "CHECK_FOLDER".data core then some "CHECK_FOLDER"
  else if containsSub "REORGANIZE".data core then some "REORGANIZE"
  else if containsSub "DCM2NII".data core then some "DCM2NII"
  else if containsSub "SPATIAL_RESAMPLING".data core then some "SPATIAL_RESAMPLING"
  else if containsSub "INTENSITY_RESAMPLING".data core then some "INTENSITY_RESAMPLING"
  else if containsSub "MERGE_MASKS".data core then some "MERGE_MASKS"
  else if containsSub "MASK_THRESHOLDING".data core then some "MASK_THRESHOLDING"
  else if containsSub "I-WINDOWING".data core then some "I-WINDOWING"
  else if containsSub "I-HARMONIZE".data core then some "I-HARMONIZE"
  else if containsSub "N4-BIAS-FIELD-CORRECTION".data core then some "N4-BIAS-FIELD-CORRECTION"
  else if containsSub "RADIOMICS".data core then some "RADIOMICS"
  else if containsSub "DELETE".data core then some "DELETE"
  else if containsSub "SEGMENTATION".data core then some "SEGMENTATION"
  else if containsSub "F-NORMALIZE".data core then some "F-NORMALIZE"
  else if containsSub "F-HARMONIZE".data core then some "F-HARMONIZE"
  else if containsSub "PREDICT".data core then some "PREDICT"
  else if containsSub "COPY".data core then some "COPY"
  else Option.none

/-- Reader state: completed records, the record under construction, and the
`begin_param_list` flag. -/
structure RCState where
  configs : List Record
  cur : Record
  began : Bool

/-- Process one line of the configuration file. -/
def rcLine (st : RCState) (raw : String) : Except ConfErr RCState :=
  let line := stripWSL raw.data
  if line.isEmpty then .ok st
  else if line.head? == some '#' then .ok st
  else if amem st.cur "function" then
    if line.head? == some '\x7b' then .ok { st with began := true }
    else if st.began then
      if line.head? == some '\x7d' then
        .ok { configs := st.configs ++ [st.cur], cur := [], began := false }
      else
        let l := removeSpTab line
        match (splitChar ':' (takeBeforeHash l)).get? 1 with
        | some v => .ok { st with cur := st.cur ++ [(⟨(splitChar ':' l).headD []⟩, ⟨v⟩)] }
        | Option.none => .error (.badLine ⟨l⟩)
    else .ok st
  else
    match kindOf (takeBeforeHash line) with
    | some k => .ok { st with cur := st.cur ++ [("function", k)] }
    | Option.none => .error (.unknownModule ⟨takeBeforeHash line⟩)

/-- Fold `rcLine` over the lines of the file. -/
def rcLines : RCState → List String → Except ConfErr RCState
  | st, [] => .ok st
  | st, l :: rest =>
    match rcLine st l with
    | .ok st' => rcLines st' rest
    | .error e => .error e

/-- `read_config_file`: the ordered list of stage records of a config file
given as its list of lines (an unclosed trailing block is silently
discarded, as in the source). -/
def read_config_file (lines : List String) : Except ConfErr (List Record) :=
  (rcLines ⟨[], [], false⟩ lines).map (·.configs)

/-! ## Building a stage's parameter dictionary (i2r.py lines 103-108, 93-100)

`params = global_params.copy()` then `params[i] = parse(cfg[i])` for every
label `i` of the record.  When a label is duplicated, `cfg[i]` returns a
two-element Series and `parse`'s first test `i in ['True','true']` raises
`ValueError` (ambiguous truth value of a Series); a `parse` exception (for
example on an empty value) also propagates uncaught. -/

/-- Overlay the record's own (parsed) values onto an accumulator. -/
def overlayGo (full : Record) : Params → List (String × String) → Except PyErr Params
  | acc, [] => .ok acc
  | acc, (k, v) :: rest =>
    if 2 ≤ countKey full k then .error .valueError
    else
      match parse v with
      | .ok pv => overlayGo full (pset acc k pv) rest
      | .error e => .error e

/-- `params` for one stage iteration: globals overlaid with the record. -/
def buildParams (globals : Params) (cfg : Record) : Except PyErr Params :=
  overlayGo cfg globals cfg

/-- Overlay for the GLOBAL_PARAMETERS pre-pass, which skips the `function`
label. -/
def overlayGlobalsGo (full : Record) : Params → List (String × String) → Except PyErr Params
  | acc, [] => .ok acc
  | acc, (k, v) :: rest =>
    if k == "function" then overlayGlobalsGo full acc rest
    else if 2 ≤ countKey full k then .error .valueError
    else
      match parse v with
      | .ok pv => overlayGlobalsGo full (pset acc k pv) rest
      | .error e => .error e

/-- The pre-pass over all records collecting `global_params` from every
GLOBAL_PARAMETERS block (lines 93-100). -/
def buildGlobals : Params → List Record → Except PyErr Params
  | acc, [] => .ok acc
  | acc, cfg :: rest =>
    if cfgFunction cfg == "GLOBAL_PARAMETERS" then
      match overlayGlobalsGo cfg acc cfg with
      | .ok acc' => buildGlobals acc' rest
      | .error e => .error e
    else buildGlobals acc rest

/-! ## Stage execution (the per-kind blocks of `main`, i2r.py lines 103-1472)

Each stage kind mirrors its Python block: default filling, the `.` and
`PREVIOUS_BLOCK_OUTPUT_FOLDER` substitutions, kind-specific validation
(aborting with `sys.exit`, modelled as `RunStop.sysExit`), flag-vector
construction (where a missing key raises an uncaught `KeyError`,
modelled as `RunStop.crash`), and dispatch of the collaborator.  The
collaborator subprocess is external: `Ctx.probe` gives the outcome of the
`CHECK_FOLDER` probe and `Ctx.collabOK` whether a `subprocess.run` call
raised (its `try`/`except` only prints an error).  Printed diagnostics are
collected in `msgs` without the ANSI color escapes; verbose-only prints are
not modelled (they do not affect state). -/

/-- Outcome of the `StructFolderCheck.py` probe, as classified by the
substring tests on its captured output (lines 157-163). -/
inductive ProbeResult where
  | ready
  | readyToReorganize
  | invalid
  | procError
  deriving DecidableEq

/-- How a run stops early: an uncaught `SystemExit` (fatal configuration
error) or an uncaught Python exception (crash with traceback). -/
inductive RunStop where
  | sysExit
  | crash (e : PyErr)
  deriving DecidableEq

/-- Result of one stage block: the resolved parameter dictionary, the
(possibly updated) global parameters, the collaborator invocations
attempted, and the diagnostics printed. -/
structure StageEffect where
  params : Params
  globals : Params
  dispatched : List (String × List String)
  msgs : List String

/-- Run context: the `-i` command-line path, the folder-probe outcome, and
whether dispatched collaborators run without raising. -/
structure Ctx where
  inputPath : String
  probe : ProbeResult
  collabOK : Bool

/-- Lift an uncaught Python exception into a run stop. -/
def liftPy {α : Type} (x : Except PyErr α) : Except RunStop α :=
  x.mapError .crash

/-- Diagnostic printed when `inputFolder` is `.` but no `-i` path was given.
Note the source only PRINTS this error and keeps going. -/
def dotMsg : String :=
  "ERROR! If inputFolder is set to \x27.\x27 img2radiomics needs to be use with -i option to select the input path"

/-- The `inputFolder` requirement shared by (almost) every stage kind:
absent means print an error and `sys.exit()`. -/
def requireInput (p : Params) : Except RunStop Params :=
  if pmem p "inputFolder" then .ok p else .error .sysExit

/-- The `.` substitution: replace with the command-line path when one was
given, otherwise print an error and continue with `.` unchanged. -/
def dotSubst (ctx : Ctx) (p : Params) : Params × List String :=
  match pget p "inputFolder" with
  | some v =>
    if pyEq v (.str ".") then
      if ctx.inputPath != "" then (pset p "inputFolder" (.str ctx.inputPath), [])
      else (p, [dotMsg])
    else (p, [])
  | Option.none => (p, [])

/-- The `PREVIOUS_BLOCK_OUTPUT_FOLDER` substitution on `inputFolder`. -/
def prevSubst (prev : PyVal) (p : Params) : Params :=
  match pget p "inputFolder" with
  | some v => if pyEq v (.str "PREVIOUS_BLOCK_OUTPUT_FOLDER") then pset p "inputFolder" prev else p
  | Option.none => p

/-- Python `params['inputFolder'].rstrip('/')`: `AttributeError` on a
non-string value. -/
def pyRStripSlash : PyVal → Except PyErr String
  | .str s => .ok ⟨rstripChar '/' s.data⟩
  | _ => .error .attributeError

/-- Derive `outputFolder` from `inputFolder` and `outputFolderSuffix`
(`params['inputFolder'].rstrip('/') + '_' + str(params['outputFolderSuffix'])`). -/
def deriveOutSuffix (p : Params) : Except PyErr Params := do
  let i ← pgetE p "inputFolder"
  let base ← pyRStripSlash i
  let sfx ← pgetE p "outputFolderSuffix"
  .ok (pset p "outputFolder" (.str (base ++ "_" ++ pyStr sfx)))

/-- Output-folder filling for kinds that default a missing output to `''`. -/
def deriveOutOrEmpty (p : Params) : Except PyErr Params :=
  if pmem p "outputFolder" then .ok p
  else if pmem p "outputFolderSuffix" then deriveOutSuffix p
  else .ok (pset p "outputFolder" (.str ""))

/-- Output-folder filling for kinds that abort when neither `outputFolder`
nor `outputFolderSuffix` is given (DCM2NII, SPATIAL_RESAMPLING). -/
def deriveOutOrExit (p : Params) : Except RunStop Params :=
  if pmem p "outputFolder" then .ok p
  else if pmem p "outputFolderSuffix" then liftPy (deriveOutSuffix p)
  else .error .sysExit

/-- Output-folder filling for RADIOMICS, which defaults to `~/`. -/
def deriveOutOrHome (p : Params) : Except PyErr Params :=
  if pmem p "outputFolder" then .ok p
  else if pmem p "outputFolderSuffix" then deriveOutSuffix p
  else .ok (pset p "outputFolder" (.str "~/"))

/-- Attempt a collaborator invocation inside the source's `try`/`except`:
the invocation is recorded either way; a raise only prints `errMsg`. -/
def runCollab (ctx : Ctx) (script : String) (fl : List String) (errMsg : String) :
    List (String × List String) × List String :=
  if ctx.collabOK then ([(script, fl)], []) else ([(script, fl)], [errMsg])

/-- The CHECK_FOLDER block (lines 113-167).  The probe classification and
the `Structure` write happen inside a `try` whose bare `except:` catches
everything — including the `SystemExit` raised after classifying the folder
as `Invalid` — so this stage never aborts the run. -/
def checkFolderStage (ctx : Ctx) (_prev : PyVal) (g : Params) (p0 : Params) :
    Except RunStop StageEffect := do
  let p := dflt "timer" (.bool false) p0
  let p := dflt "log" (.str "") p
  let p := dflt "verbose" (.bool false) p
  let p := dflt "new_log_file" (.bool false) p
  let p := dflt "with-segmentation" (.bool true) p
  let p ← requireInput p
  let (p, msgs) := dotSubst ctx p
  let fl ← liftPy (do
    let i ← pgetE p "inputFolder"
    let lg ← pgetE p "log"
    let v ← pgetE p "verbose"
    let nl ← pgetE p "new_log_file"
    let ws ← pgetE p "with-segmentation"
    pure (["-i", pyStr i] ++ ["--log", pyStr lg]
      ++ (if pyTruthy v then ["-v"] else [])
      ++ (if pyTruthy nl then ["--new_log"] else [])
      ++ (if !pyTruthy ws then ["--no-segmentation"] else [])))
  let disp := [("src/StructFolderCheck.py", fl)]
  let errMsg := "ERROR running the script StructFolderCheck.py"
  match ctx.probe with
  | .ready => .ok ⟨p, pset g "Structure" (.str "Ready"), disp, msgs⟩
  | .readyToReorganize => .ok ⟨p, pset g "Structure" (.str "Ready_to_reorganize"), disp, msgs⟩
  | .invalid => .ok ⟨p, pset g "Structure" (.str "Invalid"), disp, msgs ++ [errMsg]⟩
  | .procError => .ok ⟨p, g, disp, msgs ++ [errMsg]⟩

/-- The REORGANIZE block (lines 172-284).  Note the source derives
`outputFolder` from `outputFolderSuffix` BEFORE substituting
`PREVIOUS_BLOCK_OUTPUT_FOLDER` into `inputFolder` (lines 192-198), and
branches on `global_params['Structure']`: `Invalid` aborts (this
`sys.exit()` is not inside any `try`), `Ready` dispatches the no-op rename
collaborator unless `inplace == False` fails, anything else dispatches the
full reorganization collaborator. -/
def reorganizeStage (ctx : Ctx) (prev : PyVal) (g : Params) (p0 : Params) :
    Except RunStop StageEffect := do
  let p := dflt "timer" (.bool false) p0
  let p := dflt "with-segmentation" (.bool true) p
  let p := dflt "all-data-with-segmentation" (.bool true) p
  let p := dflt "verbose" (.bool false) p
  let p := dflt "new_log_file" (.bool false) p
  let p ← requireInput p
  let (p, msgs) := dotSubst ctx p
  let p ← liftPy (deriveOutOrEmpty p)
  let p := prevSubst prev p
  let p := dflt "inplace" (.bool false) p
  let p := dflt "log" (.str "") p
  let p := dflt "skip" (.str "") p
  let p := dflt "include" (.str "") p
  let p := dflt "multiprocessing" (.int 1) p
  let p := dflt "mv" (.str "False") p
  let g := dflt "Structure" (.str "Unknow") g
  let sv ← liftPy (pgetE g "Structure")
  let msgs := msgs ++ ["global_params[\x27Structure\x27]::  " ++ pyStr sv]
  if pyEq sv (.str "Invalid") then
    .error .sysExit
  else if pyEq sv (.str "Ready") then do
    let msgs := msgs ++ ["Current folder is already ready for processing"]
    let inplace ← liftPy (pgetE p "inplace")
    if pyEq inplace (.bool false) then do
      let fl ← liftPy (do
        let i ← pgetE p "inputFolder"
        let o ← pgetE p "outputFolder"
        let lg ← pgetE p "log"
        let mv ← pgetE p "mv"
        let v ← pgetE p "verbose"
        let nl ← pgetE p "new_log_file"
        pure (["-i", pyStr i] ++ ["-o", pyStr o] ++ ["--log", pyStr lg]
          ++ (if pyTruthy mv then ["--mv"] else [])
          ++ (if pyTruthy v then ["-v"] else [])
          ++ (if pyTruthy nl then ["--new_log"] else [])))
      let (disp, errs) := runCollab ctx "src/no_reorganize.py" fl
        "ERROR running the script no_reorganize.py"
      .ok ⟨p, g, disp, msgs ++ errs⟩
    else
      .ok ⟨p, g, [], msgs⟩
  else do
    let fl ← liftPy (do
      let i ← pgetE p "inputFolder"
      let o ← pgetE p "outputFolder"
      let lg ← pgetE p "log"
      let v ← pgetE p "verbose"
      let nl ← pgetE p "new_log_file"
      let ws ← pgetE p "with-segmentation"
      let ad ← pgetE p "all-data-with-segmentation"
      let inplace ← pgetE p "inplace"
      let sk ← pgetE p "skip"
      let inc ← pgetE p "include"
      let mp ← pgetE p "multiprocessing"
      pure (["-i", pyStr i] ++ ["-o", pyStr o] ++ ["--log", pyStr lg]
        ++ (if pyTruthy v then ["-v"] else [])
        ++ (if pyTruthy nl then ["--new_log"] else [])
        ++ (if !pyTruthy ws then ["--no-segmentation"] else [])
        ++ (if pyTruthy ad && pyTruthy ws then ["--all-segmentation"] else [])
        ++ (if pyTruthy inplace then ["--inplace"] else [])
        ++ (if !pyEq sk (.str "") then ["-S", pyStr sk] else [])
        ++ (if !pyEq inc (.str "") then ["--include", pyStr inc] else [])
        ++ ["-j", pyStr mp]))
    let (disp, errs) := runCollab ctx "src/reorganize_multiprocessing.py" fl
      "ERROR running the script reorganize.py"
    .ok ⟨p, g, disp, msgs ++ errs⟩

/-- The DCM2NII block (lines 288-361): requires `outputFolder` or
`outputFolderSuffix` (aborting otherwise), substitution of the previous
output happening before the derivation. -/
def dcm2niiStage (ctx : Ctx) (prev : PyVal) (g : Params) (p0 : Params) :
    Except RunStop StageEffect := do
  let p := dflt "timer" (.bool false) p0
  let p := dflt "with-segmentation" (.bool true) p
  let p := dflt "all-data-with-segmentation" (.bool true) p
  let p := dflt "verbose" (.bool false) p
  let p := dflt "new_log_file" (.bool false) p
  let p ← requireInput p
  let (p, msgs) := dotSubst ctx p
  let p := prevSubst prev p
  let p ← deriveOutOrExit p
  let p := dflt "mask_regMatch" (.str ".*") p
  let p := dflt "log" (.str "") p
  let p := dflt "multiprocessing" (.int 1) p
  let p := dflt "skip" (.str "") p
  let p := dflt "include" (.str "") p
  let fl ← liftPy (do
    let i ← pgetE p "inputFolder"
    let o ← pgetE p "outputFolder"
    let lg ← pgetE p "log"
    let mp ← pgetE p "multiprocessing"
    let mr ← pgetE p "mask_regMatch"
    let v ← pgetE p "verbose"
    let nl ← pgetE p "new_log_file"
    let ws ← pgetE p "with-segmentation"
    let ad ← pgetE p "all-data-with-segmentation"
    let sk ← pgetE p "skip"
    let inc ← pgetE p "include"
    pure (["-i", pyStr i] ++ ["-o", pyStr o] ++ ["--log", pyStr lg]
      ++ ["-j", pyStr mp] ++ ["-m", pyStr mr]
      ++ (if pyTruthy v then ["-v"] else [])
      ++ (if pyTruthy nl then ["--new_log"] else [])
      ++ (if !pyTruthy ws then ["--no-segmentation"] else [])
      ++ (if pyTruthy ad && pyTruthy ws then ["--all-segmentation"] else [])
      ++ (if !pyEq sk (.str "") then ["-S", pyStr sk] else [])
      ++ (if !pyEq inc (.str "") then ["--include", pyStr inc] else [])))
  let (disp, errs) := runCollab ctx "src/dcm2nii_multiprocessing.py" fl
    "ERROR running the script dcm2nii_multiprocessing.py"
  .ok ⟨p, g, disp, msgs ++ errs⟩

/-- The SPATIAL_RESAMPLING block (lines 366-453); the `-M` flag pair is
emitted twice, as in the source. -/
def spatialResamplingStage (ctx : Ctx) (prev : PyVal) (g : Params) (p0 : Params) :
    Except RunStop StageEffect := do
  let p := dflt "timer" (.bool false) p0
  let p := dflt "with-segmentation" (.bool true) p
  let p := dflt "all-data-with-segmentation" (.bool true) p
  let p := dflt "verbose" (.bool false) p
  let p := dflt "new_log_file" (.bool false) p
  let p := dflt "use_c3d" (.bool false) p
  let p ← requireInput p
  let (p, msgs) := dotSubst ctx p
  let p := prevSubst prev p
  let p ← deriveOutOrExit p
  let p := dflt "voxel_size" (.int 1) p
  let p := dflt "image_interpolation" (.str "Linear") p
  let p := dflt "mask_interpolation" (.str "NearestNeighbor") p
  let p := dflt "suffix_name" (.str "111") p
  let p := dflt "skip" (.str "") p
  let p := dflt "include" (.str "") p
  let p := dflt "multiprocessing" (.int 1) p
  let p := dflt "log" (.str "") p
  let fl ← liftPy (do
    let i ← pgetE p "inputFolder"
    let o ← pgetE p "outputFolder"
    let lg ← pgetE p "log"
    let mp ← pgetE p "multiprocessing"
    let ii ← pgetE p "image_interpolation"
    let mi ← pgetE p "mask_interpolation"
    let vs ← pgetE p "voxel_size"
    let sn ← pgetE p "suffix_name"
    let v ← pgetE p "verbose"
    let nl ← pgetE p "new_log_file"
    let c3d ← pgetE p "use_c3d"
    let ws ← pgetE p "with-segmentation"
    let ad ← pgetE p "all-data-with-segmentation"
    let sk ← pgetE p "skip"
    let inc ← pgetE p "include"
    pure (["-i", pyStr i] ++ ["-o", pyStr o] ++ ["--log", pyStr lg]
      ++ ["-j", pyStr mp] ++ ["-I", pyStr ii] ++ ["-M", pyStr mi] ++ ["-M", pyStr mi]
      ++ ["-s", pyStr vs] ++ ["-e", pyStr sn]
      ++ (if pyTruthy v then ["-v"] else [])
      ++ (if pyTruthy nl then ["--new_log"] else [])
      ++ (if pyTruthy c3d then ["--use_c3d"] else [])
      ++ (if !pyTruthy ws then ["--no-segmentation"] else [])
      ++ (if pyTruthy ad && pyTruthy ws then ["--all-segmentation"] else [])
      ++ (if !pyEq sk (.str "") then ["-S", pyStr sk] else [])
      ++ (if !pyEq inc (.str "") then ["--include", pyStr inc] else [])))
  let (disp, errs) := runCollab ctx "src/NiftiSpatialResampling_multiprocessing.py" fl
    "ERROR running the script NiftiSpatialResampling_multiprocessing.py"
  .ok ⟨p, g, disp, msgs ++ errs⟩

/-- The INTENSITY_RESAMPLING block (lines 458-554); the except clause names
the spatial-resampling script, as in the source. -/
def intensityResamplingStage (ctx : Ctx) (prev : PyVal) (g : Params) (p0 : Params) :
    Except RunStop StageEffect := do
  let p := dflt "timer" (.bool false) p0
  let p := dflt "verbose" (.bool false) p
  let p := dflt "new_log_file" (.bool false) p
  let p ← requireInput p
  let (p, msgs) := dotSubst ctx p
  let p := prevSubst prev p
  let p ← liftPy (deriveOutOrEmpty p)
  let p := dflt "image_filename" (.str "img.nii.gz") p
  let p := dflt "mask_filename" (.str "") p
  let p := dflt "resampled_image_filename" (.str "img_r.nii.gz") p
  let p := dflt "suffix_name" (.str "") p
  let p := dflt "method" (.str "binning_number") p
  let p := dflt "n_bins" (.int 256) p
  let p := dflt "bin_width" (.int 25) p
  let p := dflt "min_scaling" (.int 0) p
  let p := dflt "max_scaling" (.int 1) p
  let p := dflt "lower_bound" (.int 2) p
  let p := dflt "upper_bound" (.int 98) p
  let p := dflt "skip" (.str "") p
  let p := dflt "include" (.str "") p
  let p := dflt "multiprocessing" (.int 1) p
  let p := dflt "log" (.str "") p
  let fl ← liftPy (do
    let i ← pgetE p "inputFolder"
    let o ← pgetE p "outputFolder"
    let lg ← pgetE p "log"
    let mp ← pgetE p "multiprocessing"
    let im ← pgetE p "image_filename"
    let mk ← pgetE p "mask_filename"
    let rs ← pgetE p "resampled_image_filename"
    let sn ← pgetE p "suffix_name"
    let me ← pgetE p "method"
    let nb ← pgetE p "n_bins"
    let bw ← pgetE p "bin_width"
    let mns ← pgetE p "min_scaling"
    let mxs ← pgetE p "max_scaling"
    let lb ← pgetE p "lower_bound"
    let ub ← pgetE p "upper_bound"
    let v ← pgetE p "verbose"
    let nl ← pgetE p "new_log_file"
    let sk ← pgetE p "skip"
    let inc ← pgetE p "include"
    pure (["-i", pyStr i] ++ ["-o", pyStr o] ++ ["--log", pyStr lg]
      ++ ["-j", pyStr mp] ++ ["--img_name", pyStr im] ++ ["--msk_name", pyStr mk]
      ++ ["--resampled_img_name", pyStr rs] ++ ["-e", pyStr sn]
      ++ ["--method", pyStr me] ++ ["--n_bins", pyStr nb] ++ ["--bin_width", pyStr bw]
      ++ ["--scale_min", pyStr mns] ++ ["--scale_max", pyStr mxs]
      ++ ["--lower_bound", pyStr lb] ++ ["--upper_bound", pyStr ub]
      ++ (if pyTruthy v then ["-v"] else [])
      ++ (if pyTruthy nl then ["--new_log"] else [])
      ++ (if !pyEq sk (.str "") then ["-S", pyStr sk] else [])
      ++ (if !pyEq inc (.str "") then ["--include", pyStr inc] else [])))
  let (disp, errs) := runCollab ctx "src/NiftiIntensityResampling_multiprocessing.py" fl
    "ERROR running the script NiftiSpatialResampling_multiprocessing.py"
  .ok ⟨p, g, disp, msgs ++ errs⟩

/-- The MERGE_MASKS default filling and validation (lines 559-600): derives
`outputFolder` BEFORE the `PREVIOUS_BLOCK_OUTPUT_FOLDER` substitution,
aborts unless exactly one of `reg`/`add` is present
(`if not ('reg' in params.keys()) ^ ('add' in params.keys())`, and `not`
binds looser than `^`), defaults `sub` to `''` when only `add` is given.
Note only `mask_filename` is defaulted; `mask_name` never is. -/
def mergeMasksResolve (ctx : Ctx) (prev : PyVal) (p0 : Params) :
    Except RunStop (Params × List String) := do
  let p := dflt "timer" (.bool false) p0
  let p := dflt "verbose" (.bool false) p
  let p := dflt "new_log_file" (.bool false) p
  let p ← requireInput p
  let (p, msgs) := dotSubst ctx p
  let p ← liftPy (deriveOutOrEmpty p)
  let p := prevSubst prev p
  let p := dflt "image_filename" (.str "img.nii.gz") p
  let p := dflt "resampled_image_filename" (.str "r_img.nii.gz") p
  let p := dflt "mask_filename" (.str "") p
  let p := dflt "multiprocessing" (.int 1) p
  let p := dflt "log" (.str "") p
  if !(pmem p "reg" ^^ pmem p "add") then .error .sysExit
  else
    let p := if pmem p "add" && !pmem p "sub" then pset p "sub" (.str "") else p
    let p := dflt "skip" (.str "") p
    let p := dflt "include" (.str "") p
    .ok (p, msgs)

/-- The MERGE_MASKS flag vector (lines 608-625): reads `params['mask_name']`
— a key no default ever fills — so a `KeyError` escapes here whenever the
stage record (and the globals) did not supply it. -/
def mergeMasksFlags (p : Params) : Except PyErr (List String) := do
  let i ← pgetE p "inputFolder"
  let o ← pgetE p "outputFolder"
  let lg ← pgetE p "log"
  let mp ← pgetE p "multiprocessing"
  let mn ← pgetE p "mask_name"
  let addPart ←
    if pmem p "add" then do
      let a ← pgetE p "add"
      let s ← pgetE p "sub"
      pure ["--add", pyStr a, "--sub", pyStr s]
    else pure []
  let regPart ←
    if pmem p "reg" then do
      let r ← pgetE p "reg"
      pure ["--reg", pyStr r]
    else pure []
  let v ← pgetE p "verbose"
  let nl ← pgetE p "new_log_file"
  let sk ← pgetE p "skip"
  let inc ← pgetE p "include"
  pure (["-i", pyStr i] ++ ["-o", pyStr o] ++ ["--log", pyStr lg]
    ++ ["-j", pyStr mp] ++ ["-m", pyStr mn] ++ addPart ++ regPart
    ++ (if pyTruthy v then ["-v"] else [])
    ++ (if pyTruthy nl then ["--new_log"] else [])
    ++ (if !pyEq sk (.str "") then ["-S", pyStr sk] else [])
    ++ (if !pyEq inc (.str "") then ["--include", pyStr inc] else []))

/-- The MERGE_MASKS block (lines 559-636): resolution, flag construction,
dispatch of `NiftiMergeVolumes_multiprocessing.py` (whose except clause
names `NiftiResampling_multiprocessing.py`, as in the source). -/
def mergeMasksStage (ctx : Ctx) (prev : PyVal) (g : Params) (p0 : Params) :
    Except RunStop StageEffect := do
  let (p, msgs) ← mergeMasksResolve ctx prev p0
  let fl ← liftPy (mergeMasksFlags p)
  let (disp, errs) := runCollab ctx "src/NiftiMergeVolumes_multiprocessing.py" fl
    "ERROR running the script NiftiResampling_multiprocessing.py"
  .ok ⟨p, g, disp, msgs ++ errs⟩

/-- The MASK_THRESHOLDING block (lines 642-718); the threshold defaults are
`sys.float_info.min` (2^-1022) and `sys.float_info.max` ((2^53-1)·2^971). -/
def maskThresholdingStage (ctx : Ctx) (prev : PyVal) (g : Params) (p0 : Params) :
    Except RunStop StageEffect := do
  let p := dflt "timer" (.bool false) p0
  let p := dflt "verbose" (.bool false) p
  let p := dflt "new_log_file" (.bool false) p
  let p ← requireInput p
  let (p, msgs) := dotSubst ctx p
  let p ← liftPy (deriveOutOrEmpty p)
  let p := prevSubst prev p
  let p := dflt "image_filename" (.str "img.nii.gz") p
  let p := dflt "mask_filename" (.str "msk.nii.gz") p
  let p := dflt "multiprocessing" (.int 1) p
  let p := dflt "log" (.str "") p
  let p := dflt "skip" (.str "") p
  let p := dflt "include" (.str "") p
  let p := dflt "suffix_name" (.str "mask_thresholding") p
  let p := dflt "min_threshold" (.float (.finite ((1 : ℚ) / 2 ^ 1022))) p
  let p := dflt "max_threshold" (.float (.finite ((2 ^ 53 - 1) * 2 ^ 971))) p
  let fl ← liftPy (do
    let i ← pgetE p "inputFolder"
    let o ← pgetE p "outputFolder"
    let lg ← pgetE p "log"
    let mp ← pgetE p "multiprocessing"
    let mk ← pgetE p "mask_filename"
    let im ← pgetE p "image_filename"
    let mn ← pgetE p "min_threshold"
    let mx ← pgetE p "max_threshold"
    let sn ← pgetE p "suffix_name"
    let v ← pgetE p "verbose"
    let nl ← pgetE p "new_log_file"
    let sk ← pgetE p "skip"
    let inc ← pgetE p "include"
    pure (["-i", pyStr i] ++ ["-o", pyStr o] ++ ["--log", pyStr lg]
      ++ ["-j", pyStr mp] ++ ["-M", pyStr mk] ++ ["-I", pyStr im]
      ++ ["--min_thr", pyStr mn] ++ ["--max_thr", pyStr mx] ++ ["-e", pyStr sn]
      ++ (if pyTruthy v then ["-v"] else [])
      ++ (if pyTruthy nl then ["--new_log"] else [])
      ++ (if !pyEq sk (.str "") then ["-S", pyStr sk] else [])
      ++ (if !pyEq inc (.str "") then ["--include", pyStr inc] else [])))
  let (disp, errs) := runCollab ctx "src/NiftiMaskThresholding_multiprocessing.py" fl
    "ERROR running the script NiftiMaskThresholding_multiprocessing.py"
  .ok ⟨p, g, disp, msgs ++ errs⟩

/-- The I-WINDOWING block (lines 723-802). -/
def iWindowingStage (ctx : Ctx) (prev : PyVal) (g : Params) (p0 : Params) :
    Except RunStop StageEffect := do
  let p := dflt "timer" (.bool false) p0
  let p := dflt "verbose" (.bool false) p
  let p := dflt "new_log_file" (.bool false) p
  let p ← requireInput p
  let (p, msgs) := dotSubst ctx p
  let p ← liftPy (deriveOutOrEmpty p)
  let p := prevSubst prev p
  let p := dflt "image_filename" (.str "img.nii.gz") p
  let p := dflt "windowed_image_filename" (.str "img_w.nii.gz") p
  let p := dflt "window_name" (.str "") p
  let p := dflt "suffix_name" (.str "") p
  let p := dflt "window_level" (.int (-5000)) p
  let p := dflt "window_width" (.int (-5000)) p
  let p := dflt "multiprocessing" (.int 1) p
  let p := dflt "log" (.str "") p
  let p := dflt "skip" (.str "") p
  let p := dflt "include" (.str "") p
  let fl ← liftPy (do
    let i ← pgetE p "inputFolder"
    let o ← pgetE p "outputFolder"
    let lg ← pgetE p "log"
    let mp ← pgetE p "multiprocessing"
    let im ← pgetE p "image_filename"
    let wi ← pgetE p "windowed_image_filename"
    let wl ← pgetE p "window_level"
    let ww ← pgetE p "window_width"
    let wn ← pgetE p "window_name"
    let sn ← pgetE p "suffix_name"
    let v ← pgetE p "verbose"
    let nl ← pgetE p "new_log_file"
    let sk ← pgetE p "skip"
    let inc ← pgetE p "include"
    pure (["-i", pyStr i] ++ ["-o", pyStr o] ++ ["--log", pyStr lg]
      ++ ["-j", pyStr mp] ++ ["--img_name", pyStr im]
      ++ ["--windowed_img_name", pyStr wi] ++ ["--WL", pyStr wl] ++ ["--WW", pyStr ww]
      ++ ["--preset", pyStr wn] ++ ["-e", pyStr sn]
      ++ (if pyTruthy v then ["-v"] else [])
      ++ (if pyTruthy nl then ["--new_log"] else [])
      ++ (if !pyEq sk (.str "") then ["-S", pyStr sk] else [])
      ++ (if !pyEq inc (.str "") then ["--include", pyStr inc] else [])))
  let (disp, errs) := runCollab ctx "src/NiftiWindowing_multiprocessing.py" fl
    "ERROR running the script NiftiWindowing_multiprocessing.py"
  .ok ⟨p, g, disp, msgs ++ errs⟩

/-- The I-HARMONIZE block (lines 807-896): requires `reference_image`
(aborting with `sys.exit(1)` otherwise). -/
def iHarmonizeStage (ctx : Ctx) (prev : PyVal) (g : Params) (p0 : Params) :
    Except RunStop StageEffect := do
  let p := dflt "timer" (.bool false) p0
  let p := dflt "verbose" (.bool false) p
  let p := dflt "new_log_file" (.bool false) p
  let p ← requireInput p
  let (p, msgs) := dotSubst ctx p
  let p ← liftPy (deriveOutOrEmpty p)
  let p := prevSubst prev p
  let p := dflt "image_filename" (.str "img.nii.gz") p
  let p := dflt "mask_filename" (.str "") p
  if !pmem p "reference_image" then .error .sysExit
  else do
    let p := dflt "reference_mask" (.str "") p
    let p := dflt "harmonized_image_filename" (.str "h_img.nii.gz") p
    let p := dflt "method" (.str "histogram_matching") p
    let p := dflt "n_bins" (.int 256) p
    let p := dflt "n_matchPoints" (.int 10) p
    let p := dflt "suffix_name" (.str "") p
    let p := dflt "multiprocessing" (.int 1) p
    let p := dflt "log" (.str "") p
    let p := dflt "skip" (.str "") p
    let p := dflt "include" (.str "") p
    let fl ← liftPy (do
      let i ← pgetE p "inputFolder"
      let o ← pgetE p "outputFolder"
      let lg ← pgetE p "log"
      let mp ← pgetE p "multiprocessing"
      let im ← pgetE p "image_filename"
      let mk ← pgetE p "mask_filename"
      let ri ← pgetE p "reference_image"
      let rm ← pgetE p "reference_mask"
      let hi ← pgetE p "harmonized_image_filename"
      let me ← pgetE p "method"
      let nb ← pgetE p "n_bins"
      let nm ← pgetE p "n_matchPoints"
      let sn ← pgetE p "suffix_name"
      let v ← pgetE p "verbose"
      let nl ← pgetE p "new_log_file"
      let sk ← pgetE p "skip"
      let inc ← pgetE p "include"
      pure (["-i", pyStr i] ++ ["-o", pyStr o] ++ ["--log", pyStr lg]
        ++ ["-j", pyStr mp] ++ ["--img_name", pyStr im] ++ ["--msk_name", pyStr mk]
        ++ ["--ref_img", pyStr ri] ++ ["--ref_msk", pyStr rm]
        ++ ["--harmonized_img_name", pyStr hi] ++ ["--method", pyStr me]
        ++ ["--n_bins", pyStr nb] ++ ["--n_matchPoints", pyStr nm] ++ ["-e", pyStr sn]
        ++ (if pyTruthy v then ["-v"] else [])
        ++ (if pyTruthy nl then ["--new_log"] else [])
        ++ (if !pyEq sk (.str "") then ["-S", pyStr sk] else [])
        ++ (if !pyEq inc (.str "") then ["--include", pyStr inc] else [])))
    let (disp, errs) := runCollab ctx "src/NiftiImageHarmonization_multiprocessing.py" fl
      "ERROR running the script NiftiImageHarmonization_multiprocessing.py"
    .ok ⟨p, g, disp, msgs ++ errs⟩

/-- The N4-BIAS-FIELD-CORRECTION block (lines 901-977). -/
def n4Stage (ctx : Ctx) (prev : PyVal) (g : Params) (p0 : Params) :
    Except RunStop StageEffect := do
  let p := dflt "timer" (.bool false) p0
  let p := dflt "verbose" (.bool false) p
  let p := dflt "new_log_file" (.bool false) p
  let p ← requireInput p
  let (p, msgs) := dotSubst ctx p
  let p ← liftPy (deriveOutOrEmpty p)
  let p := prevSubst prev p
  let p := dflt "image_filename" (.str "img.nii.gz") p
  let p := dflt "mask_filename" (.str "") p
  let p := dflt "corrected_image_filename" (.str "img_n4biasCorr.nii.gz") p
  let p := dflt "bias_field_image_filename" (.str "") p
  let p := dflt "suffix_name" (.str "") p
  let p := dflt "multiprocessing" (.int 1) p
  let p := dflt "log" (.str "") p
  let p := dflt "skip" (.str "") p
  let p := dflt "include" (.str "") p
  let fl ← liftPy (do
    let i ← pgetE p "inputFolder"
    let o ← pgetE p "outputFolder"
    let lg ← pgetE p "log"
    let mp ← pgetE p "multiprocessing"
    let im ← pgetE p "image_filename"
    let mk ← pgetE p "mask_filename"
    let ci ← pgetE p "corrected_image_filename"
    let bf ← pgetE p "bias_field_image_filename"
    let sn ← pgetE p "suffix_name"
    let v ← pgetE p "verbose"
    let nl ← pgetE p "new_log_file"
    let sk ← pgetE p "skip"
    let inc ← pgetE p "include"
    pure (["-i", pyStr i] ++ ["-o", pyStr o] ++ ["--log", pyStr lg]
      ++ ["-j", pyStr mp] ++ ["--img_name", pyStr im] ++ ["--msk_name", pyStr mk]
      ++ ["--corrected_img_name", pyStr ci] ++ ["--bias_field_name", pyStr bf]
      ++ ["-e", pyStr sn]
      ++ (if pyTruthy v then ["-v"] else [])
      ++ (if pyTruthy nl then ["--new_log"] else [])
      ++ (if !pyEq sk (.str "") then ["-S", pyStr sk] else [])
      ++ (if !pyEq inc (.str "") then ["--include", pyStr inc] else [])))
  let (disp, errs) := runCollab ctx "src/NiftiN4BiasFieldCorrection_multiprocessing.py" fl
    "ERROR running the script NiftiN4BiasFieldCorrection_multiprocessing.py"
  .ok ⟨p, g, disp, msgs ++ errs⟩

/-- The RADIOMICS block (lines 983-1075): requires `configs` or
`pyradiomics_config`; substitution of the previous output happens before
the output-folder derivation (which defaults to `~/`); demotes
`save_at_the_end` with a warning when `multiprocessing > 1` (the comparison
short-circuits, so it only runs when `save_at_the_end == True`). -/
def radiomicsStage (ctx : Ctx) (prev : PyVal) (g : Params) (p0 : Params) :
    Except RunStop StageEffect := do
  let p := dflt "timer" (.bool false) p0
  let p := dflt "verbose" (.bool false) p
  let p := dflt "new_log_file" (.bool false) p
  let p := dflt "save_at_the_end" (.bool false) p
  let p := dflt "stats_filename" (.str "") p
  let p ← requireInput p
  let (p, msgs) := dotSubst ctx p
  let p := prevSubst prev p
  if !pmem p "configs" && !pmem p "pyradiomics_config" then .error .sysExit
  else do
    let p := dflt "configs" (.str "") p
    let p := dflt "pyradiomics_config" (.str "") p
    let p ← liftPy (deriveOutOrHome p)
    let p := dflt "image_filename" (.str "img.nii.gz") p
    let p := dflt "mask_filename" (.str "msk.nii.gz") p
    let p := dflt "radiomics_filename" (.str "radiomics.xlsx") p
    let p := dflt "multiprocessing" (.int 1) p
    let p := dflt "log" (.str "") p
    let p := dflt "skip" (.str "") p
    let p := dflt "include" (.str "") p
    let sae ← liftPy (pgetE p "save_at_the_end")
    let (p, msgs) ←
      if pyEq sae (.bool true) then do
        let mp ← liftPy (pgetE p "multiprocessing")
        let gt ← liftPy (pyGtInt mp 1)
        if gt then
          pure (pset p "save_at_the_end" (.bool false),
            msgs ++ ["WARNING: With multiprocessing option, radiomics results cannot be saved at the end. Save at the end was set to False"])
        else pure (p, msgs)
      else pure (p, msgs)
    let fl ← liftPy (do
      let i ← pgetE p "inputFolder"
      let o ← pgetE p "outputFolder"
      let lg ← pgetE p "log"
      let mp ← pgetE p "multiprocessing"
      let im ← pgetE p "image_filename"
      let mk ← pgetE p "mask_filename"
      let rf ← pgetE p "radiomics_filename"
      let cf ← pgetE p "configs"
      let pc ← pgetE p "pyradiomics_config"
      let sf ← pgetE p "stats_filename"
      let v ← pgetE p "verbose"
      let nl ← pgetE p "new_log_file"
      let sv ← pgetE p "save_at_the_end"
      let sk ← pgetE p "skip"
      let inc ← pgetE p "include"
      pure (["-i", pyStr i] ++ ["-o", pyStr o] ++ ["--log", pyStr lg]
        ++ ["-j", pyStr mp] ++ ["-I", pyStr im] ++ ["-M", pyStr mk]
        ++ ["-R", pyStr rf] ++ ["-c", pyStr cf] ++ ["-p", pyStr pc]
        ++ ["--stats_filename", pyStr sf]
        ++ (if pyTruthy v then ["-v"] else [])
        ++ (if pyTruthy nl then ["--new_log"] else [])
        ++ (if pyTruthy sv then ["-x"] else [])
        ++ (if !pyEq sk (.str "") then ["-S", pyStr sk] else [])
        ++ (if !pyEq inc (.str "") then ["--include", pyStr inc] else [])))
    let (disp, errs) := runCollab ctx "src/radiomics_multiprocessing.py" fl
      "ERROR running the script radiomics_multiprocessing.py"
    .ok ⟨p, g, disp, msgs ++ errs⟩

/-- The DELETE block (lines 1081-1115): requires `folder` (not
`inputFolder`), substitutes `PREVIOUS_BLOCK_OUTPUT_FOLDER` on `folder`, and
performs neither the `.` substitution nor any output-folder handling. -/
def deleteStage (ctx : Ctx) (prev : PyVal) (g : Params) (p0 : Params) :
    Except RunStop StageEffect := do
  let p := dflt "timer" (.bool false) p0
  let p := dflt "verbose" (.bool false) p
  let p := dflt "log" (.str "") p
  if !pmem p "folder" then .error .sysExit
  else do
    let fv ← liftPy (pgetE p "folder")
    let p := if pyEq fv (.str "PREVIOUS_BLOCK_OUTPUT_FOLDER") then pset p "folder" prev else p
    let fl ← liftPy (do
      let f ← pgetE p "folder"
      let lg ← pgetE p "log"
      let v ← pgetE p "verbose"
      pure (["-f", pyStr f] ++ ["--log", pyStr lg]
        ++ (if pyTruthy v then ["-v"] else [])))
    let (disp, errs) := runCollab ctx "src/delete_folder.py" fl
      "ERROR running the script delete_folder.py"
    .ok ⟨p, g, disp, errs⟩

/-- The SEGMENTATION block (lines 1121-1199): the `image_filename` default
depends on `image_type`; on a successful run `with-segmentation` is written
into the GLOBAL parameters (skipped if the subprocess call raises, since
the assignment is inside the `try`); the except clause names the radiomics
script, as in the source. -/
def segmentationStage (ctx : Ctx) (prev : PyVal) (g : Params) (p0 : Params) :
    Except RunStop StageEffect := do
  let p := dflt "timer" (.bool false) p0
  let p := dflt "verbose" (.bool false) p
  let p := dflt "new_log_file" (.bool false) p
  let p := dflt "skip-segmented-data" (.bool false) p
  let p := dflt "log" (.str "") p
  let p ← requireInput p
  let (p, msgs) := dotSubst ctx p
  let p := prevSubst prev p
  let p := dflt "skip" (.str "") p
  let p := dflt "include" (.str "") p
  let p := dflt "multiprocessing" (.int 1) p
  let p := dflt "method" (.str "TotalSegmentator") p
  let p := dflt "segmentation-list" (.str "") p
  let p := dflt "image_type" (.str "nifti") p
  let p ←
    if !pmem p "image_filename" then do
      let it ← liftPy (pgetE p "image_type")
      if pyEq it (.str "NIFTI") || pyEq it (.str "Nifti") || pyEq it (.str "nifti") then
        pure (pset p "image_filename" (.str ""))
      else pure (pset p "image_filename" (.str "DCM"))
    else pure p
  let p := dflt "job_scheduler" (.str "SGE") p
  let fl ← liftPy (do
    let i ← pgetE p "inputFolder"
    let lg ← pgetE p "log"
    let mp ← pgetE p "multiprocessing"
    let v ← pgetE p "verbose"
    let nl ← pgetE p "new_log_file"
    let ss ← pgetE p "skip-segmented-data"
    let sk ← pgetE p "skip"
    let inc ← pgetE p "include"
    let me ← pgetE p "method"
    let sl ← pgetE p "segmentation-list"
    let im ← pgetE p "image_filename"
    let it ← pgetE p "image_type"
    let js ← pgetE p "job_scheduler"
    pure (["-i", pyStr i] ++ ["--log", pyStr lg] ++ ["-j", pyStr mp]
      ++ (if pyTruthy v then ["-v"] else [])
      ++ (if pyTruthy nl then ["--new_log"] else [])
      ++ (if pyTruthy ss then ["--skip-segmented-data"] else [])
      ++ (if !pyEq sk (.str "") then ["-S", pyStr sk] else [])
      ++ (if !pyEq inc (.str "") then ["--include", pyStr inc] else [])
      ++ ["-m", pyStr me] ++ ["-f", pyStr sl] ++ ["-I", pyStr im]
      ++ ["-t", pyStr it] ++ ["--job_scheduler", pyStr js]))
  let (disp, errs) := runCollab ctx "src/segmentation_multiprocessing.py" fl
    "ERROR running the script radiomics_multiprocessing.py"
  let g := if ctx.collabOK then pset g "with-segmentation" (.bool true) else g
  .ok ⟨p, g, disp, msgs ++ errs⟩

/-- The F-NORMALIZE block (lines 1205-1274); `stratified` defaults to the
STRING `'True'`. -/
def fNormalizeStage (ctx : Ctx) (prev : PyVal) (g : Params) (p0 : Params) :
    Except RunStop StageEffect := do
  let p := dflt "timer" (.bool false) p0
  let p := dflt "verbose" (.bool false) p
  let p := dflt "new_log_file" (.bool false) p
  let p := dflt "log" (.str "") p
  let p ← requireInput p
  let (p, msgs) := dotSubst ctx p
  let p := prevSubst prev p
  let p := dflt "outputFolder" (.str "") p
  let p := dflt "modelFolder" (.str "") p
  let p := dflt "radiomics_filename" (.str "radiomics.xlsx") p
  let p := dflt "normalized_radiomics_filename" (.str "normalized_radiomics.xlsx") p
  let p := dflt "stats_filename" (.str "") p
  let p := dflt "stratified" (.str "True") p
  let p := dflt "method" (.str "MinMax") p
  let p := dflt "mode" (.str "Internal") p
  let fl ← liftPy (do
    let i ← pgetE p "inputFolder"
    let lg ← pgetE p "log"
    let o ← pgetE p "outputFolder"
    let mf ← pgetE p "modelFolder"
    let rf ← pgetE p "radiomics_filename"
    let nf ← pgetE p "normalized_radiomics_filename"
    let sf ← pgetE p "stats_filename"
    let me ← pgetE p "method"
    let st ← pgetE p "stratified"
    let mo ← pgetE p "mode"
    let v ← pgetE p "verbose"
    let nl ← pgetE p "new_log_file"
    pure (["-i", pyStr i] ++ ["--log", pyStr lg] ++ ["-o", pyStr o]
      ++ ["-m", pyStr mf] ++ ["-R", pyStr rf] ++ ["-N", pyStr nf]
      ++ ["-S", pyStr sf] ++ ["-M", pyStr me] ++ ["--stratified", pyStr st]
      ++ ["--norm_dataset", pyStr mo]
      ++ (if pyTruthy v then ["-v"] else [])
      ++ (if pyTruthy nl then ["--new_log"] else [])))
  let (disp, errs) := runCollab ctx "src/feature_normalization.py" fl
    "ERROR running the script feature_normalization.py"
  .ok ⟨p, g, disp, msgs ++ errs⟩

/-- The F-HARMONIZE block (lines 1279-1356); `ref_batch` defaults to the
Python `None`. -/
def fHarmonizeStage (ctx : Ctx) (prev : PyVal) (g : Params) (p0 : Params) :
    Except RunStop StageEffect := do
  let p := dflt "timer" (.bool false) p0
  let p := dflt "verbose" (.bool false) p
  let p := dflt "new_log_file" (.bool false) p
  let p := dflt "log" (.str "") p
  let p ← requireInput p
  let (p, msgs) := dotSubst ctx p
  let p := prevSubst prev p
  let p := dflt "outputFolder" (.str "") p
  let p := dflt "modelFolder" (.str "") p
  let p := dflt "radiomics_filename" (.str "radiomics.xlsx") p
  let p := dflt "batch_filename" (.str "radiomics.xlsx") p
  let p := dflt "harmonized_radiomics_filename" (.str "harmonized_radiomics.xlsx") p
  let p := dflt "radiomics_from_model_filename" (.str "") p
  let p := dflt "batch_from_model_filename" (.str "") p
  let p := dflt "estimates_filename" (.str "") p
  let p := dflt "ref_batch" .none p
  let p := dflt "mode" (.str "internal") p
  let p := dflt "covars" (.str "") p
  let fl ← liftPy (do
    let i ← pgetE p "inputFolder"
    let lg ← pgetE p "log"
    let o ← pgetE p "outputFolder"
    let mf ← pgetE p "modelFolder"
    let rf ← pgetE p "radiomics_filename"
    let bf ← pgetE p "batch_filename"
    let hf ← pgetE p "harmonized_radiomics_filename"
    let ef ← pgetE p "estimates_filename"
    let rm ← pgetE p "radiomics_from_model_filename"
    let bm ← pgetE p "batch_from_model_filename"
    let rb ← pgetE p "ref_batch"
    let mo ← pgetE p "mode"
    let cv ← pgetE p "covars"
    let v ← pgetE p "verbose"
    let nl ← pgetE p "new_log_file"
    pure (["-i", pyStr i] ++ ["--log", pyStr lg] ++ ["-o", pyStr o]
      ++ ["-m", pyStr mf] ++ ["-r", pyStr rf] ++ ["-b", pyStr bf]
      ++ ["-R", pyStr hf] ++ ["-E", pyStr ef]
      ++ ["--radiomics_from_model", pyStr rm] ++ ["--batch_from_model", pyStr bm]
      ++ ["--ref_batch", pyStr rb] ++ ["-M", pyStr mo] ++ ["--covars", pyStr cv]
      ++ (if pyTruthy v then ["-v"] else [])
      ++ (if pyTruthy nl then ["--new_log"] else [])))
  let (disp, errs) := runCollab ctx "src/feature_harmonization.py" fl
    "ERROR running the script feature_harmonization.py"
  .ok ⟨p, g, disp, msgs ++ errs⟩

/-- The PREDICT block (lines 1362-1421). -/
def predictStage (ctx : Ctx) (prev : PyVal) (g : Params) (p0 : Params) :
    Except RunStop StageEffect := do
  let p := dflt "timer" (.bool false) p0
  let p := dflt "verbose" (.bool false) p
  let p := dflt "new_log_file" (.bool false) p
  let p := dflt "log" (.str "") p
  let p ← requireInput p
  let (p, msgs) := dotSubst ctx p
  let p := prevSubst prev p
  let p := dflt "outputFolder" (.str "") p
  let p := dflt "modelFolder" (.str "") p
  let p := dflt "radiomics_filename" (.str "radiomics.xlsx") p
  let p := dflt "predict_filename" (.str "predict.xlsx") p
  let p := dflt "model_filename" (.str "model.pkl") p
  let fl ← liftPy (do
    let i ← pgetE p "inputFolder"
    let lg ← pgetE p "log"
    let o ← pgetE p "outputFolder"
    let mf ← pgetE p "modelFolder"
    let rf ← pgetE p "radiomics_filename"
    let pf ← pgetE p "predict_filename"
    let mo ← pgetE p "model_filename"
    let v ← pgetE p "verbose"
    let nl ← pgetE p "new_log_file"
    pure (["-i", pyStr i] ++ ["--log", pyStr lg] ++ ["-o", pyStr o]
      ++ ["-m", pyStr mf] ++ ["-r", pyStr rf] ++ ["-p", pyStr pf]
      ++ ["-M", pyStr mo]
      ++ (if pyTruthy v then ["-v"] else [])
      ++ (if pyTruthy nl then ["--new_log"] else [])))
  let (disp, errs) := runCollab ctx "src/predict.py" fl
    "ERROR running the script predict.py"
  .ok ⟨p, g, disp, msgs ++ errs⟩

/-- The COPY block (lines 1426-1468): `targetFolder` (not `outputFolder`)
names where to copy; the except clause names `predict.py`, as in the
source. -/
def copyStage (ctx : Ctx) (prev : PyVal) (g : Params) (p0 : Params) :
    Except RunStop StageEffect := do
  let p := dflt "timer" (.bool false) p0
  let p := dflt "verbose" (.bool false) p
  let p := dflt "log" (.str "") p
  let p ← requireInput p
  let (p, msgs) := dotSubst ctx p
  let p := prevSubst prev p
  let p := dflt "targetFolder" (.str "") p
  let fl ← liftPy (do
    let i ← pgetE p "inputFolder"
    let lg ← pgetE p "log"
    let t ← pgetE p "targetFolder"
    let v ← pgetE p "verbose"
    pure (["-i", pyStr i] ++ ["--log", pyStr lg] ++ ["-o", pyStr t]
      ++ (if pyTruthy v then ["-v"] else [])))
  let (disp, errs) := runCollab ctx "src/copy_folder_contents.py" fl
    "ERROR running the script predict.py"
  .ok ⟨p, g, disp, msgs ++ errs⟩

/-! ## The pipeline loop (lines 103-1472) -/

/-- The cross-stage mutable state: `global_params`, `previous_outFolder`,
and the `params` dictionary object (which persists across loop iterations
and is only rebuilt for non-GLOBAL records; the trailing `outputFolder`
check at lines 1470-1472 reads it on EVERY iteration). -/
structure PipeState where
  globals : Params
  prev : PyVal
  lastParams : Params

/-- Trace entry for one loop iteration. -/
structure StageExec where
  fn : String
  resolved : Params
  dispatched : List (String × List String)
  msgs : List String

/-- Lines 1470-1472: after each iteration, `previous_outFolder` becomes the
resolved `outputFolder` whenever that key is present with a value `!= ''`. -/
def updatePrev (p : Params) (prev : PyVal) : PyVal :=
  match pget p "outputFolder" with
  | some v => if pyEq v (.str "") then prev else v
  | Option.none => prev

/-- Dispatch a built parameter dictionary to its stage-kind block (the
`elif` chain on `cfg["function"]`); a record with an unrecognized kind falls
through every branch and does nothing, as in the source. -/
def stageRun (ctx : Ctx) (st : PipeState) (cfg : Record) (p : Params) :
    Except RunStop StageEffect :=
  match cfgFunction cfg with
  | "CHECK_FOLDER" => checkFolderStage ctx st.prev st.globals p
  | "REORGANIZE" => reorganizeStage ctx st.prev st.globals p
  | "DCM2NII" => dcm2niiStage ctx st.prev st.globals p
  | "SPATIAL_RESAMPLING" => spatialResamplingStage ctx st.prev st.globals p
  | "INTENSITY_RESAMPLING" => intensityResamplingStage ctx st.prev st.globals p
  | "MERGE_MASKS" => mergeMasksStage ctx st.prev st.globals p
  | "MASK_THRESHOLDING" => maskThresholdingStage ctx st.prev st.globals p
  | "I-WINDOWING" => iWindowingStage ctx st.prev st.globals p
  | "I-HARMONIZE" => iHarmonizeStage ctx st.prev st.globals p
  | "N4-BIAS-FIELD-CORRECTION" => n4Stage ctx st.prev st.globals p
  | "RADIOMICS" => radiomicsStage ctx st.prev st.globals p
  | "DELETE" => deleteStage ctx st.prev st.globals p
  | "SEGMENTATION" => segmentationStage ctx st.prev st.globals p
  | "F-NORMALIZE" => fNormalizeStage ctx st.prev st.globals p
  | "F-HARMONIZE" => fHarmonizeStage ctx st.prev st.globals p
  | "PREDICT" => predictStage ctx st.prev st.globals p
  | "COPY" => copyStage ctx st.prev st.globals p
  | _ => .ok ⟨p, st.globals, [], []⟩

/-- One iteration of the pipeline loop: non-GLOBAL records rebuild `params`
from the globals and run their block; every iteration then applies the
`previous_outFolder` update to the current `params` object. -/
def execCfg (ctx : Ctx) (st : PipeState) (cfg : Record) :
    Except RunStop (PipeState × StageExec) :=
  if cfgFunction cfg != "GLOBAL_PARAMETERS" then
    match (buildParams st.globals cfg).mapError RunStop.crash with
    | .error e => .error e
    | .ok p =>
      match stageRun ctx st cfg p with
      | .error e => .error e
      | .ok eff =>
        .ok ({ globals := eff.globals, prev := updatePrev eff.params st.prev,
               lastParams := eff.params },
             ⟨cfgFunction cfg, eff.params, eff.dispatched, eff.msgs⟩)
  else
    .ok ({ st with prev := updatePrev st.lastParams st.prev },
         ⟨"GLOBAL_PARAMETERS", st.lastParams, [], []⟩)

/-- Result of a whole run: the per-iteration trace, the final state, and
how the run stopped (`none` = ran to completion). -/
structure RunResult where
  trace : List StageExec
  state : PipeState
  stop : Option RunStop

/-- Fold the pipeline loop over the records, stopping at the first uncaught
exit or exception. -/
def runCfgs (ctx : Ctx) : PipeState → List Record → RunResult
  | st, [] => ⟨[], st, Option.none⟩
  | st, cfg :: rest =>
    match execCfg ctx st cfg with
    | .error e => ⟨[], st, some e⟩
    | .ok (st', ex) =>
      let r := runCfgs ctx st' rest
      ⟨ex :: r.trace, r.state, r.stop⟩

/-- The whole of `main` after CLI handling: the GLOBAL_PARAMETERS pre-pass,
then the stage loop, starting from empty state (`previous_outFolder = ''`). -/
def runPipeline (ctx : Ctx) (cfgs : List Record) : RunResult :=
  match buildGlobals [] cfgs with
  | .error e => ⟨[], ⟨[], .str "", []⟩, some (.crash e)⟩
  | .ok g => runCfgs ctx ⟨g, .str "", []⟩ cfgs

/-- End to end: read a config file (as its list of lines) and run it. -/
def runConfig (ctx : Ctx) (lines : List String) : Except ConfErr RunResult :=
  (read_config_file lines).map (runPipeline ctx)

/-! ## Statement helpers -/

/-- Whether an `Except` is a success. -/
def isOkE {ε α : Type} : Except ε α → Bool
  | .ok _ => true
  | .error _ => false

/-- String value of a key in the resolved parameters of the `n`-th trace
entry. -/
def resolvedStr (r : RunResult) (n : Nat) (k : String) : Option String :=
  match r.trace.get? n with
  | some ex => pgetStr ex.resolved k
  | Option.none => Option.none

/-- Collaborator scripts dispatched by the `n`-th trace entry. -/
def dispatchedAt (r : RunResult) (n : Nat) : List String :=
  match r.trace.get? n with
  | some ex => ex.dispatched.map (·.1)
  | Option.none => []

/-- Diagnostics printed by the `n`-th trace entry. -/
def msgsAt (r : RunResult) (n : Nat) : List String :=
  match r.trace.get? n with
  | some ex => ex.msgs
  | Option.none => []

/-- The run of a config text whose parse is expected to succeed (a parse
error yields the empty run). -/
def runOfLines (ctx : Ctx) (lines : List String) : RunResult :=
  match runConfig ctx lines with
  | .ok r => r
  | .error _ => ⟨[], ⟨[], .str "", []⟩, Option.none⟩

/-! ## Lemmas about `parse` -/

theorem dataEq {a b : String} (h : a.data = b.data) : a = b := by
  cases a; cases b; exact congrArg String.mk h

/-- On a non-empty character list, `parseF` with positive fuel succeeds:
every branch of the body except the empty-list subscript returns `.ok`
(the list branch catches every exception of its recursive calls). -/
theorem parseF_succ_ok (fuel : Nat) (c : Char) (cs : List Char) :
    ∃ v, parseF (fuel + 1) (c :: cs) = .ok v := by
  simp only [parseF]
  repeat' split
  all_goals exact ⟨_, rfl⟩

/-- `parse` succeeds on every non-empty string. -/
theorem parse_total (s : String) (hs : s ≠ "") : ∃ v, parse s = .ok v := by
  unfold parse
  match hh : s.data with
  | [] => exact absurd (dataEq (by simpa using hh)) hs
  | c :: cs => simpa [hh] using parseF_succ_ok (c :: cs).length c cs

/-- When no coercion applies, `parseF` returns the original string. -/
theorem parseF_fallback (fuel : Nat) (c : Char) (cs : List Char)
    (h1 : c :: cs ≠ "True".data) (h2 : c :: cs ≠ "true".data)
    (h3 : c :: cs ≠ "False".data) (h4 : c :: cs ≠ "false".data)
    (h5 : pyIntL (c :: cs) = Option.none) (h6 : pyFloatL (c :: cs) = Option.none)
    (h7 : containsSub "pi".data (c :: cs) = false) (hc : c ≠ '[') :
    parseF (fuel + 1) (c :: cs) = .ok (.str ⟨c :: cs⟩) := by
  simp [parseF, h1, h2, h3, h4, h5, h6, h7, hc]

/-- When no coercion applies, `parse` returns the original string. -/
theorem parse_fallback (s : String) (h1 : s ≠ "True") (h2 : s ≠ "true") (h3 : s ≠ "False")
    (h4 : s ≠ "false") (h5 : pyIntL s.data = Option.none) (h6 : pyFloatL s.data = Option.none)
    (h7 : containsSub "pi".data s.data = false) (c : Char) (cs : List Char)
    (hd : s.data = c :: cs) (hc : c ≠ '[') : parse s = .ok (.str s) := by
  have hs : s = ⟨c :: cs⟩ := dataEq (by simpa using hd)
  subst hs
  exact parseF_fallback _ c cs (fun h => h1 (dataEq (by simpa using h)))
    (fun h => h2 (dataEq (by simpa using h))) (fun h => h3 (dataEq (by simpa using h)))
    (fun h => h4 (dataEq (by simpa using h))) h5 h6 h7 hc

/-! ## Lemmas about parameter dictionaries -/

theorem pmem_pset_self (p : Params) (k : String) (v : PyVal) : pmem (pset p k v) k = true := by
  induction p with
  | nil => simp [pset, pmem, amem]
  | cons e rest ih =>
    simp only [pset]
    split
    · simp_all [pmem, amem]
    · simp_all [pmem, amem]

theorem pmem_pset_of (p : Params) (k k' : String) (v : PyVal) (h : pmem p k' = true) :
    pmem (pset p k v) k' = true := by
  induction p with
  | nil => simp [pmem, amem] at h
  | cons e rest ih =>
    simp only [pset]
    split
    · rename_i he
      simp only [pmem, amem, List.any_cons] at h ⊢
      rcases Bool.or_eq_true _ _ |>.mp h with h1 | h1
      · have hk : k = k' := by
          have h1' : e.1 = k' := by simpa using h1
          have he' : e.1 = k := by simpa using he
          rw [← he', h1']
        simp [hk]
      · simp [h1]
    · simp only [pmem, amem, List.any_cons] at h ⊢
      rcases Bool.or_eq_true _ _ |>.mp h with h1 | h1
      · exact Bool.or_eq_true _ _ |>.mpr (Or.inl h1)
      · exact Bool.or_eq_true _ _ |>.mpr (Or.inr (ih h1))

theorem pmem_dflt_self (k : String) (v : PyVal) (p : Params) : pmem (dflt k v p) k = true := by
  unfold dflt
  split
  · assumption
  · exact pmem_pset_self p k v

theorem pmem_dflt_of (k k' : String) (v : PyVal) (p : Params) (h : pmem p k' = true) :
    pmem (dflt k v p) k' = true := by
  unfold dflt
  split
  · exact h
  · exact pmem_pset_of p k k' v h

theorem pget_isSome_of_pmem (p : Params) (k : String) (h : pmem p k = true) :
    ∃ v, pget p k = some v := by
  induction p with
  | nil => simp [pmem, amem] at h
  | cons e rest ih =>
    simp only [pmem, amem, List.any_cons] at h
    simp only [pget, aget, List.find?]
    rcases Bool.or_eq_true _ _ |>.mp h with h1 | h1
    · exact ⟨e.2, by simp [h1]⟩
    · by_cases he : e.1 == k
      · exact ⟨e.2, by simp [he]⟩
      · simpa [he, pget, aget] using ih h1

theorem pget_none_of_not_pmem (p : Params) (k : String) (h : pmem p k = false) :
    pget p k = Option.none := by
  induction p with
  | nil => simp [pget, aget]
  | cons e rest ih =>
    simp only [pmem, amem, List.any_cons, Bool.or_eq_false_iff] at h
    simp [pget, aget, List.find?, h.1]
    simpa [pget, aget] using ih (by simp [pmem, amem, h.2])

theorem pgetE_ok_of_pmem (p : Params) (k : String) (h : pmem p k = true) :
    ∃ v, pgetE p k = .ok v := by
  obtain ⟨v, hv⟩ := pget_isSome_of_pmem p k h
  exact ⟨v, by simp [pgetE, hv]⟩

theorem pgetE_err_of_not_pmem (p : Params) (k : String) (h : pmem p k = false) :
    pgetE p k = .error (.keyError k) := by
  simp [pgetE, pget_none_of_not_pmem p k h]

/-! ## Lemmas about the shared resolution steps -/

theorem requireInput_ok (p q : Params) (h : requireInput p = .ok q) :
    q = p ∧ pmem p "inputFolder" = true := by
  unfold requireInput at h
  split at h
  · exact ⟨by injection h with h; exact h.symm, by assumption⟩
  · exact absurd h (by simp)

theorem dotSubst_mem (ctx : Ctx) (p : Params) (k : String) (h : pmem p k = true) :
    pmem (dotSubst ctx p).1 k = true := by
  unfold dotSubst
  split
  · split
    · split
      · simpa using pmem_pset_of p "inputFolder" k _ h
      · simpa using h
    · simpa using h
  · simpa using h

theorem prevSubst_mem (prev : PyVal) (p : Params) (k : String) (h : pmem p k = true) :
    pmem (prevSubst prev p) k = true := by
  unfold prevSubst
  split
  · split
    · exact pmem_pset_of p "inputFolder" k _ h
    · exact h
  · exact h

theorem deriveOutSuffix_ok (p q : Params) (h : deriveOutSuffix p = .ok q) :
    ∃ s, q = pset p "outputFolder" (.str s) := by
  unfold deriveOutSuffix at h
  simp only [bind, Except.bind] at h
  split at h
  · exact absurd h (by simp)
  · split at h
    · exact absurd h (by simp)
    · split at h
      · exact absurd h (by simp)
      · exact ⟨_, by injection h with h; exact h.symm⟩

theorem deriveOutOrEmpty_mem (p q : Params) (h : deriveOutOrEmpty p = .ok q) (k : String) :
    (pmem p k = true → pmem q k = true) ∧ pmem q "outputFolder" = true := by
  unfold deriveOutOrEmpty at h
  split at h
  · have hq : q = p := by injection h with h; exact h.symm
    subst hq
    exact ⟨fun hk => hk, by assumption⟩
  · split at h
    · obtain ⟨s, hs⟩ := deriveOutSuffix_ok p q h
      subst hs
      exact ⟨fun hk => pmem_pset_of p _ k _ hk, pmem_pset_self p _ _⟩
    · have hq : q = pset p "outputFolder" (.str "") := by injection h with h; exact h.symm
      subst hq
      exact ⟨fun hk => pmem_pset_of p _ k _ hk, pmem_pset_self p _ _⟩

/-- Every successful MERGE_MASKS resolution delivers a dictionary containing
`inputFolder`, `outputFolder`, `log` and `multiprocessing` (which the flag
construction reads before reaching `mask_name`). -/
theorem mergeMasksResolve_mem (ctx : Ctx) (prev : PyVal) (p0 p : Params) (msgs : List String)
    (h : mergeMasksResolve ctx prev p0 = .ok (p, msgs)) :
    pmem p "inputFolder" = true ∧ pmem p "outputFolder" = true ∧
    pmem p "log" = true ∧ pmem p "multiprocessing" = true := by
  unfold mergeMasksResolve at h
  simp only [bind, Except.bind, liftPy] at h
  split at h
  · exact absurd h (by simp)
  · rename_i q1 hre
    obtain ⟨hq1, hin1⟩ := requireInput_ok _ q1 hre
    subst hq1
    generalize hA : dflt "new_log_file" (PyVal.bool false)
      (dflt "verbose" (PyVal.bool false) (dflt "timer" (PyVal.bool false) p0)) = A at hin1 h
    generalize hQ : (dotSubst ctx A).1 = q2 at h
    have hin2 : pmem q2 "inputFolder" = true := hQ ▸ dotSubst_mem ctx A _ hin1
    cases hD : deriveOutOrEmpty q2 with
    | error e => rw [hD] at h; exact absurd h (by simp [Except.mapError])
    | ok v =>
      rw [hD] at h
      simp only [Except.mapError] at h
      have hin3 : pmem v "inputFolder" = true := (deriveOutOrEmpty_mem q2 v hD "inputFolder").1 hin2
      have hout3 : pmem v "outputFolder" = true := (deriveOutOrEmpty_mem q2 v hD "outputFolder").2
      split at h
      · exact absurd h (by simp)
      · injection h with h
        have h1 := congrArg Prod.fst h
        simp only at h1
        rw [← h1]
        refine ⟨?_, ?_, ?_, ?_⟩
        · apply pmem_dflt_of
          apply pmem_dflt_of
          split
          · apply pmem_pset_of
            apply pmem_dflt_of; apply pmem_dflt_of; apply pmem_dflt_of
            apply pmem_dflt_of; apply pmem_dflt_of
            exact prevSubst_mem _ _ _ hin3
          · apply pmem_dflt_of; apply pmem_dflt_of; apply pmem_dflt_of
            apply pmem_dflt_of; apply pmem_dflt_of
            exact prevSubst_mem _ _ _ hin3
        · apply pmem_dflt_of
          apply pmem_dflt_of
          split
          · apply pmem_pset_of
            apply pmem_dflt_of; apply pmem_dflt_of; apply pmem_dflt_of
            apply pmem_dflt_of; apply pmem_dflt_of
            exact prevSubst_mem _ _ _ hout3
          · apply pmem_dflt_of; apply pmem_dflt_of; apply pmem_dflt_of
            apply pmem_dflt_of; apply pmem_dflt_of
            exact prevSubst_mem _ _ _ hout3
        · apply pmem_dflt_of
          apply pmem_dflt_of
          split
          · apply pmem_pset_of
            exact pmem_dflt_self _ _ _
          · exact pmem_dflt_self _ _ _
        · apply pmem_dflt_of
          apply pmem_dflt_of
          split
          · apply pmem_pset_of
            apply pmem_dflt_of
            exact pmem_dflt_self _ _ _
          · apply pmem_dflt_of
            exact pmem_dflt_self _ _ _

/-! ## The claims -/

/-- The three-stage configuration of claim C1, as config-file text. -/
def C1lines : List String :=
  ["CHECK_FOLDER", "\x7b", "    inputFolder: /data", "\x7d",
   "REORGANIZE", "\x7b", "    inputFolder: PREVIOUS_BLOCK_OUTPUT_FOLDER",
   "    outputFolderSuffix: ready", "\x7d",
   "RADIOMICS", "\x7b", "    inputFolder: PREVIOUS_BLOCK_OUTPUT_FOLDER",
   "    configs: /cfg.txt", "\x7d"]

/-- C1 counterexample: in the CHECK_FOLDER / REORGANIZE / RADIOMICS config,
with the probe reporting ready-to-reorganize, the REORGANIZE stage does NOT
resolve `inputFolder` to `/data` nor derive `outputFolder = /data_ready`,
and RADIOMICS does not receive `/data_ready`: CHECK_FOLDER records no
output, so `previous_outFolder` is still the initial empty string when
REORGANIZE substitutes it, and REORGANIZE derives the output suffix from
the still-unsubstituted token (i2r.py lines 192-198 run in that order). -/
theorem C1_counterexample :
    isOkE (read_config_file C1lines) = true ∧
    (let r := runOfLines ⟨"", .readyToReorganize, true⟩ C1lines
     resolvedStr r 1 "inputFolder" = some "" ∧
     resolvedStr r 1 "outputFolder" = some "PREVIOUS_BLOCK_OUTPUT_FOLDER_ready" ∧
     resolvedStr r 2 "inputFolder" = some "PREVIOUS_BLOCK_OUTPUT_FOLDER_ready" ∧
     ¬(resolvedStr r 1 "inputFolder" = some "/data" ∧
       resolvedStr r 1 "outputFolder" = some "/data_ready" ∧
       resolvedStr r 2 "inputFolder" = some "/data_ready")) := by decide

/-- C1 amended: in that same scenario the run completes, all three stages
execute and dispatch their collaborators, the REORGANIZE stage resolves
`inputFolder` to the empty string (the initial `previous_outFolder`, since
CHECK_FOLDER declares no output) and derives
`outputFolder = PREVIOUS_BLOCK_OUTPUT_FOLDER_ready` (the suffix is appended
BEFORE the token substitution), and the RADIOMICS stage receives that
string as its `inputFolder`. -/
theorem C1_chain_actual :
    (let r := runOfLines ⟨"", .readyToReorganize, true⟩ C1lines
     r.stop = Option.none ∧
     r.trace.map (·.fn) = ["CHECK_FOLDER", "REORGANIZE", "RADIOMICS"] ∧
     pget r.state.globals "Structure" = some (.str "Ready_to_reorganize") ∧
     resolvedStr r 1 "inputFolder" = some "" ∧
     resolvedStr r 1 "outputFolder" = some "PREVIOUS_BLOCK_OUTPUT_FOLDER_ready" ∧
     resolvedStr r 2 "inputFolder" = some "PREVIOUS_BLOCK_OUTPUT_FOLDER_ready" ∧
     dispatchedAt r 1 = ["src/reorganize_multiprocessing.py"] ∧
     dispatchedAt r 2 = ["src/radiomics_multiprocessing.py"]) := by decide

/-- C2 counterexample: `parse('')` raises an uncaught `IndexError` — the
`i[0]` subscript sits inside the `except:` handler of the `float` attempt,
so nothing catches it — refuting that `parse` never raises on any input. -/
theorem C2_counterexample : parse "" = .error .indexError := rfl

/-- C2 amended: on every NON-empty string `parse` terminates without
raising, and it returns the original string whenever no boolean, integer,
float, pi-expression or list interpretation applies. -/
theorem C2_total_nonempty :
    (∀ s : String, s ≠ "" → ∃ v, parse s = .ok v) ∧
    (∀ (s : String) (c : Char) (cs : List Char), s.data = c :: cs →
      s ≠ "True" → s ≠ "true" → s ≠ "False" → s ≠ "false" →
      pyIntL s.data = Option.none → pyFloatL s.data = Option.none →
      containsSub "pi".data s.data = false → c ≠ '[' →
      parse s = .ok (.str s)) :=
  ⟨parse_total, fun s c cs hd h1 h2 h3 h4 h5 h6 h7 hc =>
    parse_fallback s h1 h2 h3 h4 h5 h6 h7 c cs hd hc⟩

/-- C2 witness: the totality and string-fallback facts at the concrete
input `abc`. -/
theorem C2_witness : isOkE (parse "abc") = true ∧ parse "abc" = .ok (.str "abc") :=
  ⟨by obtain ⟨v, hv⟩ := C2_total_nonempty.1 "abc" (by decide); simp [hv, isOkE],
   C2_total_nonempty.2 "abc" 'a' ['b', 'c'] rfl (by decide) (by decide) (by decide)
     (by decide) (by decide) (by decide) (by decide) (by decide)⟩

/-- C3 counterexample: with stage 1 declaring `outputFolder = /a` and stage
2 a CHECK_FOLDER stage with `inputFolder = PREVIOUS_BLOCK_OUTPUT_FOLDER`
and no declared output, stage 2's `inputFolder` does NOT resolve to `/a`: the
CHECK_FOLDER block performs no `PREVIOUS_BLOCK_OUTPUT_FOLDER` substitution
at all (i2r.py lines 113-167), so the literal token survives. -/
theorem C3_counterexample :
    (let r := runPipeline ⟨"", .ready, true⟩
      [[("function", "DCM2NII"), ("inputFolder", "/b"), ("outputFolder", "/a")],
       [("function", "CHECK_FOLDER"), ("inputFolder", "PREVIOUS_BLOCK_OUTPUT_FOLDER")],
       [("function", "CHECK_FOLDER"), ("inputFolder", "PREVIOUS_BLOCK_OUTPUT_FOLDER")]]
     r.stop = Option.none ∧
     resolvedStr r 0 "outputFolder" = some "/a" ∧
     resolvedStr r 1 "inputFolder" = some "PREVIOUS_BLOCK_OUTPUT_FOLDER" ∧
     ¬resolvedStr r 1 "inputFolder" = some "/a") := by decide

/-- Stage kinds that substitute `PREVIOUS_BLOCK_OUTPUT_FOLDER` into
`inputFolder` and complete with only `inputFolder` supplied (excluded:
CHECK_FOLDER and DELETE, which never substitute the token; DCM2NII and
SPATIAL_RESAMPLING, which abort without a declared output; MERGE_MASKS,
I-HARMONIZE and RADIOMICS, which abort or crash without further required
parameters). -/
def chainKinds : List String :=
  ["REORGANIZE", "INTENSITY_RESAMPLING", "MASK_THRESHOLDING", "I-WINDOWING",
   "N4-BIAS-FIELD-CORRECTION", "SEGMENTATION", "F-NORMALIZE", "F-HARMONIZE",
   "PREDICT", "COPY"]

/-- C3 amended: for stages 2 and 3 of any kind that performs the
substitution and needs no further parameters, after a stage declaring
`outputFolder = /a`: stage 2 resolves `inputFolder` to `/a`; since stage 2
declares no output (its `outputFolder` defaults to `''` or stays absent),
`previous_outFolder` is unchanged, so stage 3 also resolves `inputFolder`
to `/a` and `previous_outFolder` is still `/a` at the end. -/
theorem C3_chain (k2 k3 : String) (h2 : k2 ∈ chainKinds) (h3 : k3 ∈ chainKinds) :
    (let r := runPipeline ⟨"", .ready, true⟩
      [[("function", "DCM2NII"), ("inputFolder", "/b"), ("outputFolder", "/a")],
       [("function", k2), ("inputFolder", "PREVIOUS_BLOCK_OUTPUT_FOLDER")],
       [("function", k3), ("inputFolder", "PREVIOUS_BLOCK_OUTPUT_FOLDER")]]
     r.stop = Option.none ∧
     resolvedStr r 1 "inputFolder" = some "/a" ∧
     resolvedStr r 2 "inputFolder" = some "/a" ∧
     r.state.prev = PyVal.str "/a") := by
  fin_cases h2 <;> fin_cases h3 <;> decide

/-- C3 witness: the chain at the concrete kinds INTENSITY_RESAMPLING and
PREDICT. -/
theorem C3_witness :
    (let r := runPipeline ⟨"", .ready, true⟩
      [[("function", "DCM2NII"), ("inputFolder", "/b"), ("outputFolder", "/a")],
       [("function", "INTENSITY_RESAMPLING"), ("inputFolder", "PREVIOUS_BLOCK_OUTPUT_FOLDER")],
       [("function", "PREDICT"), ("inputFolder", "PREVIOUS_BLOCK_OUTPUT_FOLDER")]]
     r.stop = Option.none ∧
     resolvedStr r 1 "inputFolder" = some "/a" ∧
     resolvedStr r 2 "inputFolder" = some "/a" ∧
     r.state.prev = PyVal.str "/a") :=
  C3_chain "INTENSITY_RESAMPLING" "PREDICT" (by decide) (by decide)

/-- C4: the REORGANIZE three-way branch on `global_params['Structure']`:
`Invalid` aborts the pipeline before the stage dispatches anything (and
before later stages run); `Ready` dispatches the no-op rename collaborator
`no_reorganize.py` — unless `inplace` is `True`, in which case nothing is
dispatched; `Ready_to_reorganize`, an absent status (recorded as `Unknow`)
and the explicit value `Unknown` all dispatch the full reorganization
collaborator `reorganize_multiprocessing.py`. -/
theorem C4_reorganize_branching :
    ((let r := runPipeline ⟨"", .ready, true⟩
        [[("function", "GLOBAL_PARAMETERS"), ("Structure", "Invalid")],
         [("function", "REORGANIZE"), ("inputFolder", "/d")],
         [("function", "DELETE"), ("folder", "/z")]]
      r.stop = some .sysExit ∧ r.trace.map (·.fn) = ["GLOBAL_PARAMETERS"]) ∧
     (let r := runPipeline ⟨"", .invalid, true⟩
        [[("function", "CHECK_FOLDER"), ("inputFolder", "/d")],
         [("function", "REORGANIZE"), ("inputFolder", "/d")],
         [("function", "DELETE"), ("folder", "/z")]]
      r.stop = some .sysExit ∧ r.trace.map (·.fn) = ["CHECK_FOLDER"])) ∧
    ((let r := runPipeline ⟨"", .ready, true⟩
        [[("function", "CHECK_FOLDER"), ("inputFolder", "/d")],
         [("function", "REORGANIZE"), ("inputFolder", "/d")]]
      r.stop = Option.none ∧ dispatchedAt r 1 = ["src/no_reorganize.py"]) ∧
     (let r := runPipeline ⟨"", .ready, true⟩
        [[("function", "CHECK_FOLDER"), ("inputFolder", "/d")],
         [("function", "REORGANIZE"), ("inputFolder", "/d"), ("inplace", "True")]]
      r.stop = Option.none ∧ dispatchedAt r 1 = [])) ∧
    ((let r := runPipeline ⟨"", .readyToReorganize, true⟩
        [[("function", "CHECK_FOLDER"), ("inputFolder", "/d")],
         [("function", "REORGANIZE"), ("inputFolder", "/d")]]
      r.stop = Option.none ∧ dispatchedAt r 1 = ["src/reorganize_multiprocessing.py"]) ∧
     (let r := runPipeline ⟨"", .ready, true⟩
        [[("function", "REORGANIZE"), ("inputFolder", "/d")]]
      r.stop = Option.none ∧ dispatchedAt r 0 = ["src/reorganize_multiprocessing.py"] ∧
      pget r.state.globals "Structure" = some (.str "Unknow")) ∧
     (let r := runPipeline ⟨"", .ready, true⟩
        [[("function", "GLOBAL_PARAMETERS"), ("Structure", "Unknown")],
         [("function", "REORGANIZE"), ("inputFolder", "/d")]]
      r.stop = Option.none ∧ dispatchedAt r 1 = ["src/reorganize_multiprocessing.py"])) := by
  decide

/-- C5: a stage whose `inputFolder` is `.` with no `-i` path given is NOT
aborted: the source prints the usage error and then dispatches the stage
with `inputFolder` still `.` (the `else` branch at i2r.py lines 131-132
lacks a `sys.exit`), contradicting the fatal-usage-error contract. -/
theorem C5_dot_no_abort :
    (let r := runPipeline ⟨"", .ready, true⟩
      [[("function", "CHECK_FOLDER"), ("inputFolder", ".")]]
     r.stop = Option.none ∧
     resolvedStr r 0 "inputFolder" = some "." ∧
     dispatchedAt r 0 = ["src/StructFolderCheck.py"] ∧
     msgsAt r 0 = [dotMsg]) := by decide

/-- The two-stage configuration of claim C6, with a duplicated `folder` key
in the DELETE block. -/
def C6lines : List String :=
  ["CHECK_FOLDER", "\x7b", "    inputFolder: /data", "\x7d",
   "DELETE", "\x7b", "    folder: /x", "    folder: /y", "\x7d"]

/-- C6 counterexample: a duplicated key in a block is NOT a parse error —
`read_config_file` returns normally with both bindings recorded (pandas
`concat` permits duplicate labels) — and the stage before the offending
block IS executed, refuting fatal-parse-error-with-no-stage-executed. -/
theorem C6_counterexample :
    isOkE (read_config_file C6lines) = true ∧
    (let r := runOfLines ⟨"", .ready, true⟩ C6lines
     r.trace.map (·.fn) = ["CHECK_FOLDER"] ∧
     dispatchedAt r 0 = ["src/StructFolderCheck.py"]) := by decide

/-- C6 amended: parsing accepts the duplicate key, recording both bindings
in the DELETE record; the CHECK_FOLDER stage runs and dispatches its
collaborator; the run then stops with an uncaught `ValueError` raised while
building the offending block's parameters (in the source, `cfg[i]` on a
duplicated label returns a sub-Series and `parse`'s membership test
`i in ['True','true']` raises the ambiguous-truth-value `ValueError`),
rather than with a descriptive parse message. -/
theorem C6_dup_key_accepted :
    read_config_file C6lines =
      .ok [[("function", "CHECK_FOLDER"), ("inputFolder", "/data")],
           [("function", "DELETE"), ("folder", "/x"), ("folder", "/y")]] ∧
    buildParams [] [("function", "DELETE"), ("folder", "/x"), ("folder", "/y")] =
      .error .valueError ∧
    (let r := runOfLines ⟨"", .ready, true⟩ C6lines
     dispatchedAt r 0 = ["src/StructFolderCheck.py"] ∧
     r.stop = some (.crash .valueError)) :=
  ⟨rfl, rfl, by decide⟩

/-- C7 counterexample: `parse('TRUE')` returns the STRING `TRUE`, not the
boolean `True` — the source only compares against the exact literals
`'True'` and `'true'` (i2r.py line 1547) — refuting the claim that every
case variant of true/false is coerced to a boolean. -/
theorem C7_counterexample :
    parse "TRUE" = .ok (.str "TRUE") ∧ PyVal.str "TRUE" ≠ PyVal.bool true :=
  ⟨rfl, by decide⟩

/-- C7 amended: value coercion maps exactly the four literals `True`,
`true`, `False`, `false` to booleans (this check preceding the numeric and
string interpretations), while other case variants such as `TRUE`, `FALSE`
or `tRue` are returned as plain strings. -/
theorem C7_bool_literals :
    parse "True" = .ok (.bool true) ∧ parse "true" = .ok (.bool true) ∧
    parse "False" = .ok (.bool false) ∧ parse "false" = .ok (.bool false) ∧
    parse "TRUE" = .ok (.str "TRUE") ∧ parse "FALSE" = .ok (.str "FALSE") ∧
    parse "tRue" = .ok (.str "tRue") :=
  ⟨rfl, rfl, rfl, rfl, rfl, rfl, rfl⟩

/-- C8: after every executed non-GLOBAL stage, `previous_outFolder` is
updated from the stage's resolved parameters exactly when they hold an
`outputFolder` value `!= ''` — irrespective of anything else in the stage
(in particular of `Ctx.collabOK`, the collaborator's success); a stage with
no `outputFolder` key or an empty value leaves it unchanged. -/
theorem C8_prev_update (ctx : Ctx) (st : PipeState) (cfg : Record) (st' : PipeState)
    (ex : StageExec) (hfn : cfgFunction cfg ≠ "GLOBAL_PARAMETERS")
    (h : execCfg ctx st cfg = .ok (st', ex)) :
    (∀ v, pget ex.resolved "outputFolder" = some v → pyEq v (.str "") = false →
      st'.prev = v) ∧
    (∀ v, pget ex.resolved "outputFolder" = some v → pyEq v (.str "") = true →
      st'.prev = st.prev) ∧
    (pget ex.resolved "outputFolder" = Option.none → st'.prev = st.prev) := by
  unfold execCfg at h
  rw [if_pos (by simpa using hfn)] at h
  split at h
  · exact absurd h (by simp)
  · split at h
    · exact absurd h (by simp)
    · rename_i eff heff
      injection h with h
      injection h with hst hex
      subst hst
      subst hex
      refine ⟨?_, ?_, ?_⟩
      · intro v hv hne
        simp only [updatePrev, hv, hne]
        simp
      · intro v hv he
        simp only [updatePrev, hv, he]
        simp
      · intro hv
        simp only [updatePrev, hv]

/-- The resolved parameters of the C8 witness stage (a DELETE stage that
declares `outputFolder = /a`), as computed by `execCfg`. -/
def C8resolved : Params :=
  [("function", PyVal.str "DELETE"), ("folder", PyVal.str "/x"),
   ("outputFolder", PyVal.str "/a"), ("timer", PyVal.bool false),
   ("verbose", PyVal.bool false), ("log", PyVal.str "")]

/-- C8 witness: a stage declaring `outputFolder = /a` whose collaborator
FAILS (`collabOK = false`) still updates `previous_outFolder` to `/a`. -/
theorem C8_witness :
    (PipeState.mk [] (PyVal.str "/a") C8resolved).prev = PyVal.str "/a" :=
  (C8_prev_update ⟨"", .ready, false⟩ ⟨[], .str "", []⟩
    [("function", "DELETE"), ("folder", "/x"), ("outputFolder", "/a")]
    ⟨[], PyVal.str "/a", C8resolved⟩
    ⟨"DELETE", C8resolved, [("src/delete_folder.py", ["-f", "/x", "--log", ""])],
     ["ERROR running the script delete_folder.py"]⟩
    (by decide) rfl).1 (PyVal.str "/a") rfl rfl

/-- C9: whenever the MERGE_MASKS resolution succeeds (so the
mutual-exclusivity validation on `reg`/`add` passed) but the resolved
parameters hold no `mask_name` key — which no default ever fills, only
`mask_filename` is defaulted — the flag construction's `params['mask_name']`
raises an uncaught `KeyError` and the stage crashes before its collaborator
is invoked. -/
theorem C9_mask_name_keyerror (ctx : Ctx) (prev : PyVal) (g : Params) (p0 p : Params)
    (msgs : List String) (hres : mergeMasksResolve ctx prev p0 = .ok (p, msgs))
    (hnm : pmem p "mask_name" = false) :
    mergeMasksStage ctx prev g p0 = .error (.crash (.keyError "mask_name")) := by
  obtain ⟨m1, m2, m3, m4⟩ := mergeMasksResolve_mem ctx prev p0 p msgs hres
  obtain ⟨v1, hv1⟩ := pgetE_ok_of_pmem p _ m1
  obtain ⟨v2, hv2⟩ := pgetE_ok_of_pmem p _ m2
  obtain ⟨v3, hv3⟩ := pgetE_ok_of_pmem p _ m3
  obtain ⟨v4, hv4⟩ := pgetE_ok_of_pmem p _ m4
  have hmn := pgetE_err_of_not_pmem p "mask_name" hnm
  have hfl : mergeMasksFlags p = .error (.keyError "mask_name") := by
    unfold mergeMasksFlags
    simp only [bind, Except.bind, hv1, hv2, hv3, hv4, hmn]
  unfold mergeMasksStage
  simp only [bind, Except.bind, hres, liftPy, hfl, Except.mapError]

/-- The built parameters of the C9 witness stage: a MERGE_MASKS record with
`reg` given (so the validation passes) and no `mask_name`. -/
def C9p0 : Params :=
  [("function", .str "MERGE_MASKS"), ("inputFolder", .str "/d"), ("reg", .str "r.nii")]

/-- The successful resolution of the C9 witness stage. -/
def C9resolved : Params :=
  [("function", PyVal.str "MERGE_MASKS"), ("inputFolder", PyVal.str "/d"),
   ("reg", PyVal.str "r.nii"), ("timer", PyVal.bool false),
   ("verbose", PyVal.bool false), ("new_log_file", PyVal.bool false),
   ("outputFolder", PyVal.str ""), ("image_filename", PyVal.str "img.nii.gz"),
   ("resampled_image_filename", PyVal.str "r_img.nii.gz"),
   ("mask_filename", PyVal.str ""), ("multiprocessing", PyVal.int 1),
   ("log", PyVal.str ""), ("skip", PyVal.str ""), ("include", PyVal.str "")]

/-- C9 witness: the crash at the concrete MERGE_MASKS stage. -/
theorem C9_witness :
    mergeMasksStage ⟨"", .ready, true⟩ (.str "") [] C9p0 =
      .error (.crash (.keyError "mask_name")) :=
  C9_mask_name_keyerror ⟨"", .ready, true⟩ (.str "") [] C9p0 C9resolved [] rfl (by decide)

/-- C10: when the CHECK_FOLDER probe classifies the folder as neither ready
nor reorganizable, `Structure` is set to `Invalid` and the `sys.exit()` is
swallowed by the bare `except:` of the same `try`: an error message is
printed and the run continues with the next stage, which executes and
dispatches its collaborator. -/
theorem C10_invalid_swallowed :
    (let r := runPipeline ⟨"", .invalid, true⟩
      [[("function", "CHECK_FOLDER"), ("inputFolder", "/data")],
       [("function", "DELETE"), ("folder", "/tmp/x")]]
     r.stop = Option.none ∧
     pget r.state.globals "Structure" = some (.str "Invalid") ∧
     r.trace.map (·.fn) = ["CHECK_FOLDER", "DELETE"] ∧
     msgsAt r 0 = ["ERROR running the script StructFolderCheck.py"] ∧
     dispatchedAt r 1 = ["src/delete_folder.py"]) := by decide

end I2R
